import Mathlib

/-!
Verification of the RRTMG `INPUT_RRTM` generator (`src/create_input.py`).

Shallow embedding conventions:
* Python strings are modelled as `List Char` (`Str` below); a line buffer
  (Python `list` of single-character strings) is likewise a `List Char`.
* Python `float` values are modelled as exact rationals `ℚ`.  The format
  mini-language's fixed-point rendering rounds half-to-even; on a rational
  `num / den` in lowest terms, rounding `|v| * 10 ^ d` half-to-even is
  `rheFrac (v.num.natAbs * 10 ^ d) v.den`, written out on `Nat` so that the
  kernel can evaluate it.  (Python rounds the exact binary double; the model
  rounds the exact rational, which agrees on all values the claims involve.)
* A JSON configuration is a nested structure of `Option` fields: `none` models
  an absent key.  Python's `d[k]` raising `KeyError(k)` is modelled by `req`,
  which returns `Except.error ("KeyError: " ++ k)`; `d.get(k, v)` is
  `Option.getD`.
* Writing past the end of a line buffer raises `IndexError` in Python
  (`line[idx + i] = ch` with `idx + i` at or beyond the buffer length);
  `placeChars` returns `none` there and the builders propagate the failure
  as the error `idxErr`, so an overlong field or an over-length emissivity
  sequence makes generation fail exactly where the program raises.  The
  total `setChars` is proof machinery only: `placeChars` agrees with
  `some ∘ setChars` whenever every write is in range.  The builders only
  place at columns ≥ 1; Python's negative-index semantics at column 0 is
  outside the embedded domain (claims about `place_str` carry `1 ≤ col1`).
-/

namespace RRTMG

abbrev Str := List Char
abbrev Line := List Char

/-- Decimal digit characters: `digitChar k` for `k ≤ 9` (only ever applied to
values below 10; the catch-all arm keeps the function total). -/
def digitChar : Nat → Char
  | 0 => '0' | 1 => '1' | 2 => '2' | 3 => '3' | 4 => '4'
  | 5 => '5' | 6 => '6' | 7 => '7' | 8 => '8' | _ => '9'

/-- Fuel-indexed decimal digit expansion (most significant digit first). -/
def natDigitsGo : Nat → Nat → Str
  | 0, _ => []
  | fuel + 1, n =>
    if n < 10 then [digitChar n]
    else natDigitsGo fuel (n / 10) ++ [digitChar (n % 10)]

/-- Decimal digits of a natural number, as Python's `str` renders it. -/
def natDigits (n : Nat) : Str := natDigitsGo (n + 1) n

/-- Python `str(int)`: optional minus sign followed by the decimal digits. -/
def intStr (v : Int) : Str := (if v < 0 then ['-'] else []) ++ natDigits v.natAbs

/-- Left-pad with spaces to width `w` (a no-op when the text is already wider):
the right-justification of the format mini-language. -/
def padLeft (s : Str) (w : Nat) : Str := List.replicate (w - s.length) ' ' ++ s

/-- Left-pad with zeros to width `w`. -/
def padZero (w : Nat) (s : Str) : Str := List.replicate (w - s.length) '0' ++ s

/-- Round the fraction `a / b` (with `b ≠ 0`) to the nearest natural number,
half to even — the rounding used by Python's float formatting on exact
ties. -/
def rheFrac (a b : Nat) : Nat :=
  if 2 * (a % b) < b then a / b
  else if b < 2 * (a % b) then a / b + 1
  else if (a / b) % 2 = 0 then a / b else a / b + 1

/-- The magnitude of `v : ℚ` scaled by `10 ^ d` and rounded half to even. -/
def scaled (v : ℚ) (d : Nat) : Nat := rheFrac (v.num.natAbs * 10 ^ d) v.den

/-- Python `f"{v:.df}"`: fixed-point rendering at its natural width.  With
`d = 0` Python emits no decimal point; a negative input keeps its minus sign
even when the rounded magnitude is zero. -/
def pyFixed (v : ℚ) (d : Nat) : Str :=
  (if v.num < 0 then ['-'] else []) ++
    (if d = 0 then natDigits (scaled v d)
     else natDigits (scaled v d / 10 ^ d) ++
       '.' :: padZero d (natDigits (scaled v d % 10 ^ d)))

/-- Does `10 ^ k ≤ n / den` hold?  (`n / den` a positive fraction.) -/
def cmp10 (n den : Nat) (k : ℤ) : Bool :=
  decide (den * 10 ^ k.toNat ≤ n * 10 ^ (-k).toNat)

/-- The decimal exponent of the positive fraction `n / den`: the unique `e`
with `10 ^ e ≤ n / den < 10 ^ (e + 1)`. -/
def decExp (n den : Nat) : ℤ :=
  let c : ℤ := (natDigits n).length - (natDigits den).length
  if cmp10 n den c then (if cmp10 n den (c + 1) then c + 1 else c) else c - 1

/-- Python's exponential rendering `f"{q:.dE}"` of the positive fraction
`n / den`: a mantissa with `d` fractional digits and a signed two-digit-
minimum exponent; a mantissa that rounds up to `10.0…` bumps the exponent. -/
def sciBody (n den : Nat) (d : Nat) : Str :=
  let e := decExp n den
  let s : ℤ := (d : ℤ) - e
  let m := rheFrac (n * 10 ^ s.toNat) (den * 10 ^ (-s).toNat)
  let m2 := if m = 10 ^ (d + 1) then 10 ^ d else m
  let e2 := if m = 10 ^ (d + 1) then e + 1 else e
  let digs := padZero (d + 1) (natDigits m2)
  (if d = 0 then digs.take 1 else digs.take 1 ++ '.' :: digs.drop 1) ++
    'E' :: (if e2 < 0 then ['-'] else ['+']) ++ padZero 2 (natDigits e2.natAbs)

/-- `fmt_int` (`create_input.py:44`): Python `f"{value:{width}d}"`,
a right-justified integer (Fortran I format). -/
def fmt_int (value : ℤ) (width : Nat) : Str := padLeft (intStr value) width

/-- `fmt_float_f` (`create_input.py:54`): Python `f"{value:{width}.{decimals}f}"`,
Fortran F format. -/
def fmt_float_f (value : ℚ) (width decimals : Nat) : Str :=
  padLeft (pyFixed value decimals) width

/-- `fmt_float_e` (`create_input.py:49`): exponential format for a nonzero
value, fixed-point format for zero. -/
def fmt_float_e (value : ℚ) (width decimals : Nat) : Str :=
  if value ≠ 0 then
    padLeft ((if value.num < 0 then ['-'] else []) ++
      sciBody value.num.natAbs value.den decimals) width
  else fmt_float_f value width decimals

/-- The in-range effect of the `place_str` loop as a total function (proof
machinery: `placeChars` below, the model of the loop, agrees with
`some ∘ setChars` exactly when every write is in range). -/
def setChars : Line → Nat → Str → Line
  | l, _, [] => l
  | l, i, c :: cs => setChars (l.set i c) (i + 1) cs

/-- `setChars` at a 1-based column (proof machinery). -/
def setStr (line : Line) (col1 : Nat) (text : Str) : Line :=
  setChars line (col1 - 1) text

/-- Write the characters of `text` one by one starting at 0-based index `i`,
as the loop in `place_str` does (`line[idx + i] = ch`); a write at an index
at or beyond the buffer length raises `IndexError` (`create_input.py:41`),
modelled as `none`. -/
def placeChars : Line → Nat → Str → Option Line
  | l, _, [] => some l
  | l, i, c :: cs => if i < l.length then placeChars (l.set i c) (i + 1) cs else none

/-- `place_str` (`create_input.py:37`): place `text` starting at the 1-based
column `col1`; `none` models the uncaught `IndexError` of an out-of-range
write. -/
def place_str (line : Line) (col1 : Nat) (text : Str) : Option Line :=
  placeChars line (col1 - 1) text

/-- The message of the `IndexError` Python raises on an out-of-range list
assignment. -/
def idxErr : String := "IndexError: list assignment index out of range"

/-- An uncaught `IndexError` propagates out of a record builder: lift a
placement result into the builders' error monad. -/
def optE : Option Line → Except String Line
  | some l => Except.ok l
  | none => Except.error idxErr

/-- `make_line` (`create_input.py:59`): a blank line of `length` spaces. -/
def make_line (length : Nat) : Line := List.replicate length ' '

/-- Python `str.rstrip()`: remove trailing whitespace. -/
def rstrip (l : Str) : Str := (l.reverse.dropWhile Char.isWhitespace).reverse

/-- `line_to_str` (`create_input.py:64`): join the buffer and strip trailing
whitespace. -/
def line_to_str (line : Line) : Str := rstrip line

/-- RECORD 1.1 configuration: two free-text lines. -/
structure Record_1_1 where
  header : Option Str
  control_line : Option Str

/-- RECORD 1.2 configuration: the eight main control flags. -/
structure Record_1_2 where
  IAER : Option ℤ
  IATM : Option ℤ
  IXSECT : Option ℤ
  NUMANGS : Option ℤ
  IOUT : Option ℤ
  IDRV : Option ℤ
  IMCA : Option ℤ
  ICLD : Option ℤ

/-- RECORD 1.4 configuration: surface properties. -/
structure Record_1_4 where
  TBOUND : Option ℚ
  IEMIS : Option ℤ
  IREFLECT : Option ℤ
  SEMISS : Option (List ℚ)

/-- RECORD 3.1 configuration: atmospheric profile selection. -/
structure Record_3_1 where
  MODEL : Option ℤ
  IBMAX : Option ℤ
  NOPRNT : Option ℤ
  NMOL : Option ℤ
  IPUNCH : Option ℤ
  MUNITS : Option ℤ
  RE : Option ℚ
  CO2MX : Option ℚ

/-- RECORD 3.2 configuration: altitude boundaries. -/
structure Record_3_2 where
  HBOUND : Option ℚ
  HTOA : Option ℚ

/-- RECORD 3.3A configuration: layer generation parameters. -/
structure Record_3_3a where
  AVTRAT : Option ℚ
  TDIFF1 : Option ℚ
  TDIFF2 : Option ℚ
  ALTD1 : Option ℚ
  ALTD2 : Option ℚ

/-- A configuration document (comment keys already stripped). -/
structure Config where
  record_1_1 : Option Record_1_1
  record_1_2 : Option Record_1_2
  record_1_4 : Option Record_1_4
  record_3_1 : Option Record_3_1
  record_3_2 : Option Record_3_2
  record_3_3a : Option Record_3_3a

/-- The message of Python's `KeyError(k)`. -/
def keyErr (k : String) : String := "KeyError: " ++ k

/-- Python's `d[k]`: the value if the key is present, `KeyError` otherwise. -/
def req (key : String) : Option α → Except String α
  | none => Except.error (keyErr key)
  | some v => Except.ok v

/-- `build_record_1_1` (`create_input.py:70`): header and `$` control line. -/
def build_record_1_1 (cfg : Config) : Except String (List Str) := do
  let r ← req "record_1_1" cfg.record_1_1
  let h ← req "header" r.header
  let c ← req "control_line" r.control_line
  return [h, c]

/-- `build_record_1_2` (`create_input.py:76`): main control flags.  Each
statement looks the field up (`KeyError` if absent) and then places it
(`IndexError` if the write overruns the buffer), in source order. -/
def build_record_1_2 (cfg : Config) : Except String Str := do
  let r ← req "record_1_2" cfg.record_1_2
  let line := make_line 95
  let line ← optE (place_str line 19 (fmt_int (← req "IAER" r.IAER) 2))
  let line ← optE (place_str line 50 (fmt_int (← req "IATM" r.IATM) 1))
  let line ← optE (place_str line 70 (fmt_int (← req "IXSECT" r.IXSECT) 1))
  let line ← optE (place_str line 84 (fmt_int (← req "NUMANGS" r.NUMANGS) 2))
  let line ← optE (place_str line 88 (fmt_int (← req "IOUT" r.IOUT) 3))
  let line ← optE (place_str line 92 (fmt_int (← req "IDRV" r.IDRV) 1))
  let line ← optE (place_str line 94 (fmt_int (← req "IMCA" r.IMCA) 1))
  let line ← optE (place_str line 95 (fmt_int (← req "ICLD" r.ICLD) 1))
  return line_to_str line

/-- The `SEMISS` loop of `build_record_1_4` (`create_input.py:123`): value `i`
goes at column `16 + i * 5`, rendered `f"{val:5.2f}"` (= `fmt_float_f val 5 2`);
the first out-of-range write aborts the loop with `IndexError`. -/
def placeSemissFrom (line : Line) (i : Nat) : List ℚ → Option Line
  | [] => some line
  | v :: vs =>
    (place_str line (16 + i * 5) (fmt_float_f v 5 2)).bind
      fun l => placeSemissFrom l (i + 1) vs

/-- The in-range effect of the `SEMISS` loop (proof machinery, cf. `setChars`). -/
def setSemissFrom (line : Line) (i : Nat) : List ℚ → Line
  | [] => line
  | v :: vs => setSemissFrom (setStr line (16 + i * 5) (fmt_float_f v 5 2)) (i + 1) vs

/-- `build_record_1_4` (`create_input.py:105`): surface properties.  `TBOUND`
is rendered `f"{…:.1f}"` (natural width, one fractional digit) and placed at
column 1. -/
def build_record_1_4 (cfg : Config) : Except String Str := do
  let r ← req "record_1_4" cfg.record_1_4
  let tbound ← req "TBOUND" r.TBOUND
  let line := make_line 95
  let line ← optE (place_str line 1 (pyFixed tbound 1))
  let line ← optE (place_str line 12 (fmt_int (← req "IEMIS" r.IEMIS) 1))
  let line ← optE (place_str line 15 (fmt_int (← req "IREFLECT" r.IREFLECT) 1))
  let line ← optE (placeSemissFrom line 0 (r.SEMISS.getD []))
  return line_to_str line

/-- `build_record_3_1` (`create_input.py:130`): atmospheric profile selection.
`RE` and `CO2MX` are read with `.get(…, 0)` and a zero value is written as a
single literal `"0"` (at column 45 for `RE`, column 71 for `CO2MX`). -/
def build_record_3_1 (cfg : Config) : Except String Str := do
  let r ← req "record_3_1" cfg.record_3_1
  let line := make_line 80
  let line ← optE (place_str line 1 (fmt_int (← req "MODEL" r.MODEL) 5))
  let line ← optE (place_str line 11 (fmt_int (← req "IBMAX" r.IBMAX) 5))
  let line ← optE (place_str line 21 (fmt_int (← req "NOPRNT" r.NOPRNT) 5))
  let line ← optE (place_str line 26 (fmt_int (← req "NMOL" r.NMOL) 5))
  let line ← optE (place_str line 31 (fmt_int (← req "IPUNCH" r.IPUNCH) 5))
  let line ← optE (place_str line 39 (fmt_int (← req "MUNITS" r.MUNITS) 2))
  let re_val := r.RE.getD 0
  let line ← if re_val ≠ 0 then optE (place_str line 41 (fmt_float_f re_val 10 3))
             else optE (place_str line 45 ['0'])
  let co2 := r.CO2MX.getD 0
  let line ← if co2 ≠ 0 then optE (place_str line 71 (fmt_float_f co2 10 3))
             else optE (place_str line 71 ['0'])
  return line_to_str line

/-- `build_record_3_2` (`create_input.py:167`): altitude boundaries.  `HBOUND`
is rendered `f"{…:.1f}"` at column 1; `HTOA` is `fmt_float_f … 10 1` at
column 11. -/
def build_record_3_2 (cfg : Config) : Except String Str := do
  let r ← req "record_3_2" cfg.record_3_2
  let line := make_line 20
  let line ← optE (place_str line 1 (pyFixed (← req "HBOUND" r.HBOUND) 1))
  let line ← optE (place_str line 11 (fmt_float_f (← req "HTOA" r.HTOA) 10 1))
  return line_to_str line

/-- `build_record_3_3a` (`create_input.py:181`): layer generation parameters;
the loop over `AVTRAT, TDIFF1, TDIFF2, ALTD1, ALTD2` (each `.get(key, 0)`,
column `1 + i * 10`, `fmt_float_f … 10 0`) is unrolled. -/
def build_record_3_3a (cfg : Config) : Except String Str := do
  let r ← req "record_3_3a" cfg.record_3_3a
  let line := make_line 50
  let line ← optE (place_str line 1 (fmt_float_f (r.AVTRAT.getD 0) 10 0))
  let line ← optE (place_str line 11 (fmt_float_f (r.TDIFF1.getD 0) 10 0))
  let line ← optE (place_str line 21 (fmt_float_f (r.TDIFF2.getD 0) 10 0))
  let line ← optE (place_str line 31 (fmt_float_f (r.ALTD1.getD 0) 10 0))
  let line ← optE (place_str line 41 (fmt_float_f (r.ALTD2.getD 0) 10 0))
  return line_to_str line

/-- Python's `'\n'.join(lines)`. -/
def joinNl : List Str → Str
  | [] => []
  | [l] => l
  | l :: ls => l ++ '\n' :: joinNl ls

/-- `generate_input_rrtm` (`create_input.py:196`): assemble all records.  The
trailing blank line is appended and the lines are joined with a final
newline. -/
def generate_input_rrtm (cfg : Config) : Except String Str := do
  let hdr ← build_record_1_1 cfg
  let l12 ← build_record_1_2 cfg
  let l14 ← build_record_1_4 cfg
  let r12 ← req "record_1_2" cfg.record_1_2
  let iatm ← req "IATM" r12.IATM
  let rest ←
    if iatm = 1 then do
      let l31 ← build_record_3_1 cfg
      let l32 ← build_record_3_2 cfg
      let r31 ← req "record_3_1" cfg.record_3_1
      if r31.IBMAX.getD 0 = 0 then do
        let l33 ← build_record_3_3a cfg
        pure [l31, l32, l33]
      else pure [l31, l32]
    else pure ([] : List Str)
  let lines := hdr ++ l12 :: l14 :: rest ++ [[]]
  return joinNl lines ++ ['\n']

/-- The newline-terminated lines of a text that ends in a newline: splitting
on `'\n'` leaves a final empty remainder, which `dropLast` discards (this is
Python's `str.splitlines` for such texts). -/
def splitNl : Str → List Str
  | [] => [[]]
  | c :: cs =>
    if c = '\n' then [] :: splitNl cs
    else match splitNl cs with
      | t :: ts => (c :: t) :: ts
      | [] => [[c]]

/-- The lines of a generated document. -/
def docLines (s : Str) : List Str := (splitNl s).dropLast

/-- A concrete configuration whose emissivity sequence contains the value 0. -/
def cfgEmissZero : Config := Config.mk none none
  (some (Record_1_4.mk (some 288) (some 1) (some 0) (some [0]))) none none none
/-! ### Concrete configurations -/

/-- A concrete configuration exercising the full `IATM = 1`, `IBMAX = 0` path. -/
def cfgFull : Config := Config.mk
  (some (Record_1_1.mk (some "TROPICAL PROFILE".toList) (some "$ RRTM LW".toList)))
  (some (Record_1_2.mk (some 0) (some 1) (some 0) (some 0) (some 0) (some 0) (some 0)
    (some 0)))
  (some (Record_1_4.mk (some 288) (some 1) (some 0) (some [mkRat 49 50])))
  (some (Record_3_1.mk (some 1) (some 0) (some 0) (some 7) (some 0) (some 0) none none))
  (some (Record_3_2.mk (some 0) (some 70)))
  (some (Record_3_3a.mk none none none none none))

/-- The document `cfgFull` generates. -/
def docFull : Str := ("TROPICAL PROFILE\n$ RRTM LW\n                   0                             1                   0              0    0 0 00\n288.0      1  0 0.98\n    1         0         0    7    0    0    0                         0\n0.0             70.0\n         0         0         0         0         0\n\n").toList

/-- A concrete configuration with `IATM = 0` and no record 3.x data. -/
def cfgNoAtm : Config := Config.mk
  (some (Record_1_1.mk (some "TROPICAL PROFILE".toList) (some "$ RRTM LW".toList)))
  (some (Record_1_2.mk (some 0) (some 0) (some 0) (some 0) (some 0) (some 0) (some 0)
    (some 0)))
  (some (Record_1_4.mk (some 288) (some 1) (some 0) (some [mkRat 49 50])))
  none none none

/-- The document `cfgNoAtm` generates. -/
def docNoAtm : Str := ("TROPICAL PROFILE\n$ RRTM LW\n                   0                             0                   0              0    0 0 00\n288.0      1  0 0.98\n\n").toList

/-- The required keys of RECORD 1.1 a configuration lacks. -/
def missing1_1 : Option Record_1_1 → List String
  | none => ["record_1_1"]
  | some r =>
    (if r.header.isNone then ["header"] else []) ++
    (if r.control_line.isNone then ["control_line"] else [])

/-- The required keys of RECORD 1.2 a configuration lacks. -/
def missing1_2 : Option Record_1_2 → List String
  | none => ["record_1_2"]
  | some r =>
    (if r.IAER.isNone then ["IAER"] else []) ++
    (if r.IATM.isNone then ["IATM"] else []) ++
    (if r.IXSECT.isNone then ["IXSECT"] else []) ++
    (if r.NUMANGS.isNone then ["NUMANGS"] else []) ++
    (if r.IOUT.isNone then ["IOUT"] else []) ++
    (if r.IDRV.isNone then ["IDRV"] else []) ++
    (if r.IMCA.isNone then ["IMCA"] else []) ++
    (if r.ICLD.isNone then ["ICLD"] else [])

/-- The required keys of RECORD 1.4 a configuration lacks (`SEMISS` is read
with `.get` and is not required). -/
def missing1_4 : Option Record_1_4 → List String
  | none => ["record_1_4"]
  | some r =>
    (if r.TBOUND.isNone then ["TBOUND"] else []) ++
    (if r.IEMIS.isNone then ["IEMIS"] else []) ++
    (if r.IREFLECT.isNone then ["IREFLECT"] else [])

/-- The required keys of RECORD 3.1 a configuration lacks (`RE` and `CO2MX`
are read with `.get` and are not required). -/
def missing3_1 : Option Record_3_1 → List String
  | none => ["record_3_1"]
  | some r =>
    (if r.MODEL.isNone then ["MODEL"] else []) ++
    (if r.IBMAX.isNone then ["IBMAX"] else []) ++
    (if r.NOPRNT.isNone then ["NOPRNT"] else []) ++
    (if r.NMOL.isNone then ["NMOL"] else []) ++
    (if r.IPUNCH.isNone then ["IPUNCH"] else []) ++
    (if r.MUNITS.isNone then ["MUNITS"] else [])

/-- The required keys of RECORD 3.2 a configuration lacks. -/
def missing3_2 : Option Record_3_2 → List String
  | none => ["record_3_2"]
  | some r =>
    (if r.HBOUND.isNone then ["HBOUND"] else []) ++
    (if r.HTOA.isNone then ["HTOA"] else [])

/-- The required key of RECORD 3.3A a configuration lacks (the record itself;
its five parameter fields are all read with `.get` and are not required). -/
def missing3_3a : Option Record_3_3a → List String
  | none => ["record_3_3a"]
  | some _ => []

/-- The required keys a configuration lacks.  Keys read with `.get(…, d)` —
`SEMISS`, `RE`, `CO2MX`, the five record 3.3A parameters, and the assembler's
`IBMAX` read — are not required. -/
def missingKeys (cfg : Config) : List String :=
  missing1_1 cfg.record_1_1 ++ missing1_2 cfg.record_1_2 ++
  missing1_4 cfg.record_1_4 ++ missing3_1 cfg.record_3_1 ++
  missing3_2 cfg.record_3_2 ++ missing3_3a cfg.record_3_3a

/-- The key `k` is required but absent from the configuration. -/
abbrev MissingKey (cfg : Config) (k : String) : Prop := k ∈ missingKeys cfg

/-- The keys the program requires on a configuration's active path, in the
order it reads them: the records and fields looked up with `d[k]`
unconditionally, the record 3.x keys only when `IATM = 1`, and `record_3_3a`
only when additionally `IBMAX = 0`. -/
def requiredKeys (cfg : Config) : List String :=
  ["record_1_1", "header", "control_line",
   "record_1_2", "IAER", "IATM", "IXSECT", "NUMANGS", "IOUT", "IDRV", "IMCA", "ICLD",
   "record_1_4", "TBOUND", "IEMIS", "IREFLECT"] ++
  (if (cfg.record_1_2.bind Record_1_2.IATM).getD 0 = 1 then
    ["record_3_1", "MODEL", "IBMAX", "NOPRNT", "NMOL", "IPUNCH", "MUNITS",
     "record_3_2", "HBOUND", "HTOA"] ++
    (if (cfg.record_3_1.bind Record_3_1.IBMAX).getD 0 = 0 then ["record_3_3a"] else [])
   else [])
/-- Fill in every silently-defaulted field of a configuration: `SEMISS` with
the empty sequence, `RE`, `CO2MX` and the five record 3.3A parameters with
zero. -/
def fillDefaults (cfg : Config) : Config :=
  Config.mk cfg.record_1_1 cfg.record_1_2
    (match cfg.record_1_4 with
     | none => none
     | some r => some (Record_1_4.mk r.TBOUND r.IEMIS r.IREFLECT
         (some (r.SEMISS.getD []))))
    (match cfg.record_3_1 with
     | none => none
     | some r => some (Record_3_1.mk r.MODEL r.IBMAX r.NOPRNT r.NMOL r.IPUNCH r.MUNITS
         (some (r.RE.getD 0)) (some (r.CO2MX.getD 0))))
    cfg.record_3_2
    (match cfg.record_3_3a with
     | none => none
     | some r => some (Record_3_3a.mk (some (r.AVTRAT.getD 0)) (some (r.TDIFF1.getD 0))
         (some (r.TDIFF2.getD 0)) (some (r.ALTD1.getD 0)) (some (r.ALTD2.getD 0))))
/-- `cfgFull` with `RE` and `CO2MX` set explicitly to zero. -/
def cfgFullRE0 : Config := Config.mk
  (some (Record_1_1.mk (some "TROPICAL PROFILE".toList) (some "$ RRTM LW".toList)))
  (some (Record_1_2.mk (some 0) (some 1) (some 0) (some 0) (some 0) (some 0) (some 0)
    (some 0)))
  (some (Record_1_4.mk (some 288) (some 1) (some 0) (some [mkRat 49 50])))
  (some (Record_3_1.mk (some 1) (some 0) (some 0) (some 7) (some 0) (some 0) (some 0)
    (some 0)))
  (some (Record_3_2.mk (some 0) (some 70)))
  (some (Record_3_3a.mk none none none none none))

/-! ### Basic facts about characters, digits and padding -/

theorem digitChar_isDigit (k : Nat) : (digitChar k).isDigit = true := by
  unfold digitChar; split <;> decide

theorem digitChar_not_ws (k : Nat) : (digitChar k).isWhitespace = false := by
  unfold digitChar; split <;> decide

theorem digitChar_ne_nl (k : Nat) : digitChar k ≠ '\n' := by
  unfold digitChar; split <;> decide

theorem digitChar_ne_dot (k : Nat) : digitChar k ≠ '.' := by
  unfold digitChar; split <;> decide

theorem digitChar_ne_E (k : Nat) : digitChar k ≠ 'E' := by
  unfold digitChar; split <;> decide

theorem mem_natDigitsGo {c : Char} :
    ∀ {fuel n : Nat}, c ∈ natDigitsGo fuel n → ∃ k, c = digitChar k := by
  intro fuel
  induction fuel with
  | zero => intro n h; simp [natDigitsGo] at h
  | succ fuel ih =>
    intro n h
    rw [natDigitsGo] at h
    split at h
    · simp at h; exact ⟨n, h⟩
    · rcases List.mem_append.1 h with h' | h'
      · exact ih h'
      · simp at h'; exact ⟨n % 10, h'⟩

theorem mem_natDigits {c : Char} {n : Nat} (h : c ∈ natDigits n) :
    ∃ k, c = digitChar k := mem_natDigitsGo h

theorem natDigitsGo_ne_nil {fuel n : Nat} (h : 0 < fuel) : natDigitsGo fuel n ≠ [] := by
  cases fuel with
  | zero => omega
  | succ fuel => rw [natDigitsGo]; split <;> simp

theorem natDigits_ne_nil (n : Nat) : natDigits n ≠ [] := natDigitsGo_ne_nil (by omega)

theorem natDigitsGo_length_le :
    ∀ {fuel n d : Nat}, n < 10 ^ d → (natDigitsGo fuel n).length ≤ max d 1 := by
  intro fuel
  induction fuel with
  | zero => intro n d _; simp [natDigitsGo]
  | succ fuel ih =>
    intro n d h
    rw [natDigitsGo]
    split
    · simp
    · rename_i h10
      have hd2 : 2 ≤ d := by
        by_contra hc
        have : 10 ^ d ≤ 10 := by
          calc 10 ^ d ≤ 10 ^ 1 := Nat.pow_le_pow_right (by omega) (by omega)
          _ = 10 := by norm_num
        omega
      have hdiv : n / 10 < 10 ^ (d - 1) := by
        rw [Nat.div_lt_iff_lt_mul (by omega)]
        calc n < 10 ^ d := h
        _ = 10 ^ (d - 1) * 10 := by
              rw [← Nat.pow_succ]; congr 1; omega
      have := ih hdiv
      simp only [List.length_append, List.length_cons, List.length_nil]
      omega

theorem natDigits_length_le {n d : Nat} (h : n < 10 ^ d) (hd : 1 ≤ d) :
    (natDigits n).length ≤ d := by
  unfold natDigits
  have h2 := @natDigitsGo_length_le (n + 1) n d h
  omega

theorem padLeft_length (s : Str) (w : Nat) : (padLeft s w).length = max w s.length := by
  simp [padLeft]; omega

theorem padZero_length (s : Str) (w : Nat) : (padZero w s).length = max w s.length := by
  simp [padZero]; omega

theorem mem_padLeft {c : Char} {s : Str} {w : Nat} (h : c ∈ padLeft s w) :
    c = ' ' ∨ c ∈ s := by
  rcases List.mem_append.1 h with h' | h'
  · exact Or.inl (List.eq_of_mem_replicate h')
  · exact Or.inr h'

theorem mem_padZero {c : Char} {s : Str} {w : Nat} (h : c ∈ padZero w s) :
    c = '0' ∨ c ∈ s := by
  rcases List.mem_append.1 h with h' | h'
  · exact Or.inl (List.eq_of_mem_replicate h')
  · exact Or.inr h'

theorem mem_intStr {c : Char} {v : ℤ} (h : c ∈ intStr v) :
    c = '-' ∨ ∃ k, c = digitChar k := by
  unfold intStr at h
  rcases List.mem_append.1 h with h' | h'
  · split at h' <;> simp_all
  · exact Or.inr (mem_natDigits h')

theorem mem_pyFixed {c : Char} {v : ℚ} {d : Nat} (h : c ∈ pyFixed v d) :
    c = '-' ∨ c = '.' ∨ c = '0' ∨ ∃ k, c = digitChar k := by
  unfold pyFixed at h
  rcases List.mem_append.1 h with h' | h'
  · split at h' <;> simp_all
  · split at h'
    · exact Or.inr (Or.inr (Or.inr (mem_natDigits h')))
    · rcases List.mem_append.1 h' with h'' | h''
      · exact Or.inr (Or.inr (Or.inr (mem_natDigits h'')))
      · rcases List.mem_cons.1 h'' with h3 | h3
        · exact Or.inr (Or.inl h3)
        · rcases mem_padZero h3 with h4 | h4
          · exact Or.inr (Or.inr (Or.inl h4))
          · exact Or.inr (Or.inr (Or.inr (mem_natDigits h4)))

theorem pyFixed_not_ws {c : Char} {v : ℚ} {d : Nat} (h : c ∈ pyFixed v d) :
    c.isWhitespace = false := by
  rcases mem_pyFixed h with h | h | h | ⟨k, h⟩ <;> subst h
  · decide
  · decide
  · decide
  · exact digitChar_not_ws k

theorem intStr_not_ws {c : Char} {v : ℤ} (h : c ∈ intStr v) :
    c.isWhitespace = false := by
  rcases mem_intStr h with h | ⟨k, h⟩ <;> subst h
  · decide
  · exact digitChar_not_ws k

theorem nl_not_mem_fmt_int (v : ℤ) (w : Nat) : '\n' ∉ fmt_int v w := by
  intro h
  rcases mem_padLeft h with h' | h'
  · simp at h'
  · have := intStr_not_ws h'; simp [Char.isWhitespace] at this

theorem nl_not_mem_pyFixed (v : ℚ) (d : Nat) : '\n' ∉ pyFixed v d := by
  intro h
  have := pyFixed_not_ws h; simp [Char.isWhitespace] at this

theorem nl_not_mem_fmt_float_f (v : ℚ) (w d : Nat) : '\n' ∉ fmt_float_f v w d := by
  intro h
  rcases mem_padLeft h with h' | h'
  · simp at h'
  · exact nl_not_mem_pyFixed v d h'

/-! ### The line buffer: placement is splicing -/

theorem setChars_eq :
    ∀ (cs : Str) (l : Line) (i : Nat),
      setChars l i cs = l.take i ++ cs.take (l.length - i) ++ l.drop (i + cs.length) := by
  intro cs
  induction cs with
  | nil => intro l i; simp [setChars]
  | cons c cs ih =>
    intro l i
    rw [setChars, ih]
    by_cases hi : i < l.length
    · have hset : l.set i c = l.take i ++ c :: l.drop (i + 1) :=
        List.set_eq_take_cons_drop c hi
      rw [List.length_set, hset]
      have h1 : (l.take i).length = i := List.length_take_of_le (by omega)
      rw [List.take_append_eq_append_take, List.drop_append_eq_append_drop, h1]
      have h2 : l.take i ++ c :: l.drop (i + 1) = (l.take i ++ [c]) ++ l.drop (i + 1) := by
        simp
      have htk : (l.take i ++ c :: l.drop (i + 1)).take (i + 1) = l.take i ++ [c] := by
        rw [List.take_append_eq_append_take, h1,
          List.take_of_length_le (l := l.take i) (by omega)]
        congr 1
        simp
      rw [List.take_of_length_le (l := l.take i) (by omega)]
      have h3 : i + 1 - i = 1 := by omega
      rw [h3]
      have h4 : (c :: l.drop (i + 1)).take 1 = [c] := by simp
      rw [h4]
      have h5 : i + 1 + cs.length - i = 1 + cs.length := by omega
      rw [h5]
      have h6 : (c :: l.drop (i + 1)).drop (1 + cs.length) = l.drop (i + 1 + cs.length) := by
        have h61 : (1 : Nat) + cs.length = cs.length + 1 := by omega
        rw [h61, List.drop_succ_cons, List.drop_drop]
      rw [h6]
      have h7 : l.length - (i + 1) = l.length - i - 1 := by omega
      have h8 : (c :: cs).take (l.length - i) = c :: cs.take (l.length - i - 1) := by
        have h81 : l.length - i = (l.length - i - 1) + 1 := by omega
        rw [h81, List.take_succ_cons]
        simp
      rw [h7, h8]
      have h9 : i + (c :: cs).length = i + 1 + cs.length := by simp; omega
      rw [h9]
      simp
      omega
    · rw [List.set_eq_of_length_le (by omega)]
      have h1 : l.take i = l := List.take_of_length_le (by omega)
      have h2 : l.take (i + 1) = l := List.take_of_length_le (by omega)
      have h3 : l.length - i = 0 := by omega
      have h4 : l.length - (i + 1) = 0 := by omega
      have hd1 : l.drop (i + 1 + cs.length) = [] := List.drop_of_length_le (by omega)
      have hd2 : l.drop (i + (c :: cs).length) = [] :=
        List.drop_of_length_le (by simp; omega)
      rw [h1, h2, h3, h4, hd1, hd2]
      simp

theorem setChars_length (l : Line) (i : Nat) (cs : Str) :
    (setChars l i cs).length = l.length := by
  induction cs generalizing l i with
  | nil => rfl
  | cons c cs ih => rw [setChars, ih, List.length_set]

theorem setStr_length (l : Line) (col1 : Nat) (t : Str) :
    (setStr l col1 t).length = l.length := setChars_length l (col1 - 1) t

theorem mem_setChars {x : Char} :
    ∀ {cs : Str} {l : Line} {i : Nat}, x ∈ setChars l i cs → x ∈ l ∨ x ∈ cs := by
  intro cs
  induction cs with
  | nil => intro l i h; exact Or.inl h
  | cons c cs ih =>
    intro l i h
    rcases ih h with h' | h'
    · rcases List.mem_or_eq_of_mem_set h' with h'' | h''
      · exact Or.inl h''
      · exact Or.inr (by simp [h''])
    · exact Or.inr (List.mem_cons_of_mem c h')

theorem mem_setStr {x : Char} {l : Line} {col1 : Nat} {t : Str}
    (h : x ∈ setStr l col1 t) : x ∈ l ∨ x ∈ t := mem_setChars h

/-! ### The fallible placement agrees with `setChars` in range -/

theorem placeChars_eq_some :
    ∀ {cs : Str} {l : Line} {i : Nat}, i + cs.length ≤ l.length →
      placeChars l i cs = some (setChars l i cs) := by
  intro cs
  induction cs with
  | nil => intro l i _; rfl
  | cons c cs ih =>
    intro l i h
    simp only [List.length_cons] at h
    rw [placeChars, if_pos (by omega), setChars]
    exact ih (by rw [List.length_set]; omega)

theorem placeChars_some_eq :
    ∀ {cs : Str} {l : Line} {i : Nat} {l2 : Line},
      placeChars l i cs = some l2 → l2 = setChars l i cs := by
  intro cs
  induction cs with
  | nil =>
    intro l i l2 h
    rw [placeChars] at h
    injection h with h
    exact h.symm
  | cons c cs ih =>
    intro l i l2 h
    rw [placeChars] at h
    split at h
    · rw [setChars]; exact ih h
    · exact absurd h (by simp)

theorem place_str_eq (l : Line) (col1 : Nat) (t : Str)
    (h : col1 - 1 + t.length ≤ l.length) :
    place_str l col1 t = some (setStr l col1 t) := placeChars_eq_some h

theorem place_str_some_eq {l : Line} {col1 : Nat} {t : Str} {l2 : Line}
    (h : place_str l col1 t = some l2) : l2 = setStr l col1 t :=
  placeChars_some_eq h

/-! ### Reduction lemmas for the `Except` plumbing -/

@[simp] theorem req_some (key : String) (v : α) : req key (some v) = Except.ok v := rfl

@[simp] theorem req_none (key : String) :
    req key (none : Option α) = Except.error (keyErr key) := rfl

@[simp] theorem ok_bind (a : α) (f : α → Except String β) :
    (Except.ok a >>= f) = f a := rfl

@[simp] theorem error_bind (e : String) (f : α → Except String β) :
    ((Except.error e : Except String α) >>= f) = Except.error e := rfl

@[simp] theorem pure_ok (a : α) : (pure a : Except String α) = Except.ok a := rfl

@[simp] theorem optE_some (l : Line) : optE (some l) = Except.ok l := rfl

@[simp] theorem optE_none : optE none = Except.error idxErr := rfl

theorem optE_place_eq (l : Line) (col1 : Nat) (t : Str)
    (h : col1 - 1 + t.length ≤ l.length) :
    optE (place_str l col1 t) = Except.ok (setStr l col1 t) := by
  rw [place_str_eq l col1 t h]
  rfl

theorem optE_ok_inv {o : Option Line} {l : Line} (h : optE o = Except.ok l) :
    o = some l := by
  cases o with
  | none => exact absurd h (by simp)
  | some x =>
    simp only [optE_some, Except.ok.injEq] at h
    rw [h]

theorem optE_error_inv {o : Option Line} {e : String} (h : optE o = Except.error e) :
    e = idxErr := by
  cases o with
  | none =>
    simp only [optE_none, Except.error.injEq] at h
    exact h.symm
  | some x => exact absurd h (by simp)

/-! ### rstrip -/

theorem mem_rstrip {x : Char} {l : Str} (h : x ∈ rstrip l) : x ∈ l := by
  unfold rstrip at h
  rw [List.mem_reverse] at h
  have := List.dropWhile_sublist (l := l.reverse) (p := Char.isWhitespace)
  exact List.mem_reverse.1 (this.mem h)

theorem rstrip_append_ws {a b : Str} (h : ∀ c ∈ b, c.isWhitespace = true) :
    rstrip (a ++ b) = rstrip a := by
  unfold rstrip
  rw [List.reverse_append, List.dropWhile_append]
  have hb : b.reverse.dropWhile Char.isWhitespace = [] := by
    rw [List.dropWhile_eq_nil_iff]
    intro x hx
    exact h x (List.mem_reverse.1 hx)
  simp [hb]

theorem rstrip_append_keep {a b : Str} (h : ∃ c ∈ b, c.isWhitespace = false) :
    rstrip (a ++ b) = a ++ rstrip b := by
  unfold rstrip
  rw [List.reverse_append, List.dropWhile_append]
  have hb : b.reverse.dropWhile Char.isWhitespace ≠ [] := by
    rw [Ne, List.dropWhile_eq_nil_iff]
    push_neg
    obtain ⟨c, hc, hcw⟩ := h
    exact ⟨c, List.mem_reverse.2 hc, by simp [hcw]⟩
  simp only [List.isEmpty_iff, hb, if_false]
  rw [List.reverse_append]
  simp

theorem nl_not_mem_rstrip {l : Str} (h : '\n' ∉ l) : '\n' ∉ rstrip l :=
  fun hc => h (mem_rstrip hc)

/-! ### joinNl and splitNl -/

theorem joinNl_cons_cons (l : Str) (m : Str) (ls : List Str) :
    joinNl (l :: m :: ls) = l ++ '\n' :: joinNl (m :: ls) := rfl

theorem joinNl_append_nil :
    ∀ {ls : List Str}, ls ≠ [] → joinNl (ls ++ [[]]) = joinNl ls ++ ['\n'] := by
  intro ls
  induction ls with
  | nil => intro h; exact absurd rfl h
  | cons l ls ih =>
    intro _
    cases ls with
    | nil => rfl
    | cons m ms =>
      rw [List.cons_append, List.cons_append, joinNl_cons_cons, ← List.cons_append,
        ih (by simp), joinNl_cons_cons]
      simp

theorem splitNl_no_nl {a : Str} (h : '\n' ∉ a) : splitNl a = [a] := by
  induction a with
  | nil => rfl
  | cons c cs ih =>
    rw [splitNl]
    have hc : ¬ c = '\n' := fun hc => h (by simp [hc])
    rw [if_neg hc, ih (fun hm => h (List.mem_cons_of_mem c hm))]

theorem splitNl_append_nl {a : Str} (r : Str) (h : '\n' ∉ a) :
    splitNl (a ++ '\n' :: r) = a :: splitNl r := by
  induction a with
  | nil => simp [splitNl]
  | cons c cs ih =>
    have hc : ¬ c = '\n' := fun hc => h (by simp [hc])
    rw [List.cons_append, splitNl, if_neg hc,
      ih (fun hm => h (List.mem_cons_of_mem c hm))]

theorem splitNl_joinNl :
    ∀ {ls : List Str}, ls ≠ [] → (∀ l ∈ ls, '\n' ∉ l) →
      splitNl (joinNl ls ++ ['\n']) = ls ++ [[]] := by
  intro ls
  induction ls with
  | nil => intro h; exact absurd rfl h
  | cons l ls ih =>
    intro _ hp
    cases ls with
    | nil =>
      show splitNl (l ++ '\n' :: []) = [l, []]
      rw [splitNl_append_nl [] (hp l (by simp))]
      rfl
    | cons m ms =>
      rw [joinNl_cons_cons, List.append_assoc, List.cons_append,
        splitNl_append_nl _ (hp l (by simp)),
        ih (by simp) (fun x hx => hp x (List.mem_cons_of_mem l hx))]
      rfl

/-! ### Claim C9: framing of `place_str` -/

/-- C9: for every line buffer, 1-based column and text whose placement stays
within the buffer, `place_str` succeeds (no `IndexError`), overwrites exactly
the `text.length` characters starting at that column, leaves every position
outside the written range unchanged, and leaves the buffer length
unchanged. -/
theorem place_str_frame (buf : Line) (col1 : Nat) (text : Str)
    (hcol : 1 ≤ col1) (hfit : col1 - 1 + text.length ≤ buf.length) :
    ∃ out : Line, place_str buf col1 text = some out ∧
      out.length = buf.length ∧
      (∀ k, k < text.length → out[col1 - 1 + k]? = text[k]?) ∧
      (∀ j, j < col1 - 1 ∨ col1 - 1 + text.length ≤ j → out[j]? = buf[j]?) := by
  have hsplice := setChars_eq text buf (col1 - 1)
  have htk : text.take (buf.length - (col1 - 1)) = text :=
    List.take_of_length_le (by omega)
  have hlen : (buf.take (col1 - 1)).length = col1 - 1 :=
    List.length_take_of_le (by omega)
  refine ⟨setStr buf col1 text, place_str_eq buf col1 text hfit,
    setStr_length buf col1 text, ?_, ?_⟩
  · intro k hk
    rw [setStr, hsplice, htk]
    rw [List.append_assoc, List.getElem?_append_right (by omega)]
    rw [hlen]
    have h1 : col1 - 1 + k - (col1 - 1) = k := by omega
    rw [h1, List.getElem?_append_left hk]
  · intro j hj
    rw [setStr, hsplice, htk]
    rcases hj with hj | hj
    · rw [List.append_assoc, List.getElem?_append_left (by omega)]
      exact List.getElem?_take_of_lt hj
    · rw [List.append_assoc, List.getElem?_append_right (by omega), hlen]
      rw [List.getElem?_append_right (by omega)]
      rw [List.getElem?_drop]
      congr 1
      omega

/-- C9 witness: the frame theorem applied at a concrete buffer and text. -/
theorem place_str_frame_witness :
    ∃ out : Line, place_str ['a', 'b', 'c', 'd', 'e'] 3 ['X', 'Y'] = some out ∧
      out.length = (['a', 'b', 'c', 'd', 'e'] : Line).length ∧
      (∀ k, k < (['X', 'Y'] : Str).length → out[3 - 1 + k]? = (['X', 'Y'] : Str)[k]?) ∧
      (∀ j, j < 3 - 1 ∨ 3 - 1 + (['X', 'Y'] : Str).length ≤ j →
        out[j]? = (['a', 'b', 'c', 'd', 'e'] : Line)[j]?) :=
  place_str_frame ['a', 'b', 'c', 'd', 'e'] 3 ['X', 'Y'] (by decide) (by decide)

/-! ### Claim C3: width overflow is silent, formatters guarantee only a
minimum width -/

/-- C3 counterexample: `fmt_int 123 2` silently returns the three-character
string `"123"` — not a string of the requested width 2, and not an error. -/
theorem fmt_int_overflow_silent :
    fmt_int 123 2 = ['1', '2', '3'] ∧ (fmt_int 123 2).length ≠ 2 := by decide

/-- C3 (amended): every numeric formatter returns the value right-justified
with spaces to the requested width when it fits, and otherwise silently
returns the longer natural representation; the output width is exactly
`max width (natural width)`, hence always at least the requested width. -/
theorem formatter_min_width (v : ℤ) (q : ℚ) (w d : Nat) :
    (fmt_int v w).length = max w (intStr v).length ∧
    (fmt_float_f q w d).length = max w (pyFixed q d).length ∧
    w ≤ (fmt_int v w).length ∧ w ≤ (fmt_float_f q w d).length ∧
    w ≤ (fmt_float_e q w d).length := by
  refine ⟨padLeft_length _ _, padLeft_length _ _, ?_, ?_, ?_⟩
  · rw [fmt_int, padLeft_length]; omega
  · rw [fmt_float_f, padLeft_length]; omega
  · rw [fmt_float_e]
    split
    · rw [padLeft_length]; omega
    · rw [fmt_float_f, padLeft_length]; omega

/-! ### Claim C8: fixed-point rendering -/

/-- C8 counterexample: with a fractional-digit count of zero — the count used
by all five layer-generation fields — the fixed-point formatter emits no
decimal point at all: `fmt_float_f 3 10 0` is `"         3"`. -/
theorem fmt_float_f_zero_decimals_no_point :
    fmt_float_f 3 10 0 = "         3".toList ∧ '.' ∉ fmt_float_f 3 10 0 := by decide

/-- C8 (amended): for a fractional-digit count `d ≥ 1` the fixed-point
formatter emits a literal decimal point followed by exactly `d` digits,
right-aligned (space-filled on the left) within the width; for `d = 0` it
emits a whole number with no decimal point. -/
theorem fmt_float_f_shape (v : ℚ) (w d : Nat) :
    (1 ≤ d → ∃ a b : Str, pyFixed v d = a ++ '.' :: b ∧ '.' ∉ a ∧ b.length = d ∧
      (∀ c ∈ b, c.isDigit = true) ∧
      fmt_float_f v w d = List.replicate (w - (pyFixed v d).length) ' ' ++ pyFixed v d) ∧
    (d = 0 → '.' ∉ fmt_float_f v w d) ∧
    w ≤ (fmt_float_f v w d).length := by
  refine ⟨?_, ?_, by rw [fmt_float_f, padLeft_length]; omega⟩
  · intro hd
    refine ⟨(if v.num < 0 then ['-'] else []) ++ natDigits (scaled v d / 10 ^ d),
      padZero d (natDigits (scaled v d % 10 ^ d)), ?_, ?_, ?_, ?_, rfl⟩
    · rw [pyFixed, if_neg (show ¬ d = 0 by omega)]
      simp
    · intro hc
      rcases List.mem_append.1 hc with h' | h'
      · split at h' <;> simp_all
      · rcases mem_natDigits h' with ⟨k, hk⟩
        exact digitChar_ne_dot k hk.symm
    · rw [padZero_length]
      have hb : scaled v d % 10 ^ d < 10 ^ d :=
        Nat.mod_lt _ (Nat.pos_pow_of_pos d (by omega))
      have := natDigits_length_le hb hd
      omega
    · intro c hc
      rcases mem_padZero hc with h' | h'
      · subst h'; decide
      · rcases mem_natDigits h' with ⟨k, hk⟩
        subst hk; exact digitChar_isDigit k
  · intro hd hc
    rcases mem_padLeft hc with h' | h'
    · simp at h'
    · rw [pyFixed, if_pos hd] at h'
      rcases List.mem_append.1 h' with h'' | h''
      · split at h'' <;> simp_all
      · rcases mem_natDigits h'' with ⟨k, hk⟩
        exact digitChar_ne_dot k hk.symm

/-- C8 witness: the shape theorem applied at `5/2`, width 7, two decimals
(the `d ≥ 1` branch) and at `3`, width 10, zero decimals (the `d = 0`
branch). -/
theorem fmt_float_f_shape_witness :
    (∃ a b : Str, pyFixed (mkRat 5 2) 2 = a ++ '.' :: b ∧ '.' ∉ a ∧ b.length = 2 ∧
      (∀ c ∈ b, c.isDigit = true) ∧
      fmt_float_f (mkRat 5 2) 7 2 =
        List.replicate (7 - (pyFixed (mkRat 5 2) 2).length) ' ' ++ pyFixed (mkRat 5 2) 2) ∧
    '.' ∉ fmt_float_f 3 10 0 :=
  ⟨(fmt_float_f_shape (mkRat 5 2) 7 2).1 (by decide),
   (fmt_float_f_shape 3 10 0).2.1 rfl⟩

/-! ### Claim C7: zero renders fixed-point instead of exponential -/


/-- C7: the exponential formatter renders an exactly-zero value in fixed-point
form (never containing an `E`); in particular at width 5 with 2 decimals zero
renders as `" 0.00"`, and a zero emissivity in the surface-properties record
produces `" 0.00"` at columns 16–20. -/
theorem fmt_float_e_zero_fixed :
    (∀ w d : Nat, fmt_float_e 0 w d = fmt_float_f 0 w d ∧ 'E' ∉ fmt_float_e 0 w d) ∧
    fmt_float_e 0 5 2 = " 0.00".toList ∧
    build_record_1_4 cfgEmissZero = .ok "288.0      1  0 0.00".toList := by
  refine ⟨?_, by decide, by rfl⟩
  intro w d
  have hz : ¬ ((0 : ℚ) ≠ 0) := by simp
  constructor
  · rw [fmt_float_e, if_neg hz]
  · intro hc
    rw [fmt_float_e, if_neg hz, fmt_float_f] at hc
    rcases mem_padLeft hc with h' | h'
    · simp at h'
    · rcases mem_pyFixed h' with h | h | h | ⟨k, h⟩
      · simp at h
      · simp at h
      · simp at h
      · exact digitChar_ne_E k h.symm

/-! ### Index-level frame lemmas for placements -/

theorem setChars_getElem_lt {j : Nat} :
    ∀ {cs : Str} {l : Line} {i : Nat}, j < i → (setChars l i cs)[j]? = l[j]? := by
  intro cs
  induction cs with
  | nil => intro l i _; rfl
  | cons c cs ih =>
    intro l i hj
    rw [setChars, ih (by omega), List.getElem?_set_ne (by omega)]

theorem setChars_getElem_ge {j : Nat} :
    ∀ {cs : Str} {l : Line} {i : Nat}, i + cs.length ≤ j →
      (setChars l i cs)[j]? = l[j]? := by
  intro cs
  induction cs with
  | nil => intro l i _; rfl
  | cons c cs ih =>
    intro l i hj
    simp only [List.length_cons] at hj
    rw [setChars, ih (by omega), List.getElem?_set_ne (by omega)]

theorem setStr_getElem_lt {l : Line} {c1 : Nat} {t : Str} {j : Nat} (hj : j < c1 - 1) :
    (setStr l c1 t)[j]? = l[j]? := setChars_getElem_lt hj

theorem setStr_getElem_ge {l : Line} {c1 : Nat} {t : Str} {j : Nat}
    (hj : c1 - 1 + t.length ≤ j) :
    (setStr l c1 t)[j]? = l[j]? := setChars_getElem_ge hj

theorem setChars_getElem_in :
    ∀ {cs : Str} {l : Line} {i k : Nat}, k < cs.length → i + k < l.length →
      (setChars l i cs)[i + k]? = cs[k]? := by
  intro cs
  induction cs with
  | nil => intro l i k hk _; simp at hk
  | cons c cs ih =>
    intro l i k hk hin
    cases k with
    | zero =>
      rw [setChars, setChars_getElem_lt (by omega)]
      simp only [Nat.add_zero]
      rw [List.getElem?_set_self (by omega)]
      simp
    | succ k =>
      have h1 : i + (k + 1) = (i + 1) + k := by omega
      rw [setChars, h1, ih (by simp at hk; omega) (by rw [List.length_set]; omega)]
      simp

theorem setStr_getElem_in {l : Line} {c1 : Nat} {t : Str} {k : Nat}
    (hk : k < t.length) (hin : c1 - 1 + k < l.length) :
    (setStr l c1 t)[c1 - 1 + k]? = t[k]? := setChars_getElem_in hk hin

theorem intStr_length_pos (v : ℤ) : 0 < (intStr v).length := by
  rw [intStr]
  have := natDigits_ne_nil v.natAbs
  cases h : natDigits v.natAbs with
  | nil => exact absurd h this
  | cons c cs => simp [h]

theorem pyFixed_length_pos (v : ℚ) (d : Nat) : 0 < (pyFixed v d).length := by
  rw [pyFixed]
  split
  · simp
  · split
    · have := natDigits_ne_nil (scaled v d)
      cases h : natDigits (scaled v d) with
      | nil => exact absurd h this
      | cons c cs => simp [h]
    · simp

/-! ### rstrip and indices -/

theorem rstrip_singleton_nonws {c : Char} (hw : c.isWhitespace = false) :
    rstrip [c] = [c] := by
  simp [rstrip, List.dropWhile, hw]

theorem rstrip_eq_self_of_last_nonws {a : Str} {p : Nat} {c : Char}
    (hlen : a.length = p + 1) (hc : a[p]? = some c) (hw : c.isWhitespace = false) :
    rstrip a = a := by
  have hsplit : a = a.take p ++ a.drop p := (List.take_append_drop p a).symm
  have hdrop : a.drop p = [c] := by
    have hd0 : (a.drop p)[0]? = some c := by
      rw [List.getElem?_drop]; simpa using hc
    have hdl : (a.drop p).length = 1 := by rw [List.length_drop]; omega
    cases hD : a.drop p with
    | nil => rw [hD] at hdl; simp at hdl
    | cons x xs =>
      rw [hD] at hd0 hdl
      simp at hd0 hdl
      simp [hd0, hdl]
  rw [hsplit, hdrop, rstrip_append_keep ⟨c, by simp, hw⟩, rstrip_singleton_nonws hw]

theorem rstrip_keep_through {L : Str} {p : Nat} {c : Char}
    (hc : L[p]? = some c) (hw : c.isWhitespace = false) :
    p < (rstrip L).length ∧ ∀ j, j ≤ p → (rstrip L)[j]? = L[j]? := by
  have hp : p < L.length := by
    rcases List.getElem?_eq_some_iff.1 hc with ⟨h, _⟩; exact h
  have hsplit : L = L.take (p + 1) ++ L.drop (p + 1) := (List.take_append_drop _ L).symm
  have htlen : (L.take (p + 1)).length = p + 1 := List.length_take_of_le (by omega)
  have htp : (L.take (p + 1))[p]? = some c := by
    rw [List.getElem?_take_of_lt (by omega)]; exact hc
  by_cases hb : ∃ x ∈ L.drop (p + 1), x.isWhitespace = false
  · have h1 : rstrip L = L.take (p + 1) ++ rstrip (L.drop (p + 1)) := by
      conv_lhs => rw [hsplit]
      exact rstrip_append_keep hb
    constructor
    · rw [h1, List.length_append]; omega
    · intro j hj
      rw [h1, List.getElem?_append_left (by omega), List.getElem?_take_of_lt (by omega)]
  · push_neg at hb
    have hball : ∀ x ∈ L.drop (p + 1), x.isWhitespace = true := by
      intro x hx
      have := hb x hx
      revert this
      cases x.isWhitespace <;> simp
    have h1 : rstrip L = L.take (p + 1) := by
      conv_lhs => rw [hsplit]
      rw [rstrip_append_ws hball]
      exact rstrip_eq_self_of_last_nonws htlen htp hw
    constructor
    · rw [h1]; omega
    · intro j hj
      rw [h1, List.getElem?_take_of_lt (by omega)]

/-! ### The SEMISS loop -/

theorem setSemissFrom_length :
    ∀ (vs : List ℚ) (l : Line) (i : Nat), (setSemissFrom l i vs).length = l.length := by
  intro vs
  induction vs with
  | nil => intro l i; rfl
  | cons v vs ih => intro l i; rw [setSemissFrom, ih, setStr_length]

theorem setSemissFrom_getElem_lt :
    ∀ {vs : List ℚ} {l : Line} {i j : Nat}, j < 15 + 5 * i →
      (setSemissFrom l i vs)[j]? = l[j]? := by
  intro vs
  induction vs with
  | nil => intro l i j _; rfl
  | cons v vs ih =>
    intro l i j hj
    rw [setSemissFrom, ih (by omega), setStr_getElem_lt (by omega)]

theorem placeSemissFrom_some_eq :
    ∀ {vs : List ℚ} {l : Line} {i : Nat} {l2 : Line},
      placeSemissFrom l i vs = some l2 → l2 = setSemissFrom l i vs := by
  intro vs
  induction vs with
  | nil =>
    intro l i l2 h
    rw [placeSemissFrom] at h
    injection h with h
    exact h.symm
  | cons v vs ih =>
    intro l i l2 h
    rw [placeSemissFrom] at h
    rcases hp : place_str l (16 + i * 5) (fmt_float_f v 5 2) with _ | l3
    · rw [hp] at h; simp at h
    · rw [hp] at h
      rw [setSemissFrom, ← place_str_some_eq hp]
      exact ih h

theorem placeSemissFrom_eq :
    ∀ (vs : List ℚ) (l : Line) (i : Nat), l.length = 95 → i + vs.length ≤ 16 →
      (∀ v ∈ vs, (pyFixed v 2).length ≤ 5) →
      placeSemissFrom l i vs = some (setSemissFrom l i vs) := by
  intro vs
  induction vs with
  | nil => intro l i _ _ _; rfl
  | cons v vs ih =>
    intro l i hl hc hw
    simp only [List.length_cons] at hc
    have hf : (fmt_float_f v 5 2).length = 5 := by
      rw [fmt_float_f, padLeft_length]
      have := hw v (by simp)
      omega
    rw [placeSemissFrom, setSemissFrom, place_str_eq _ _ _ (by rw [hf, hl]; omega)]
    exact ih _ _ (by rw [setStr_length, hl]) (by omega)
      (fun w hwm => hw w (by simp [hwm]))

/-! ### Claim C4: the zero-value literal fallbacks of record 3.1 -/

/-- C4: in the atmospheric-profile record, a radius-of-curvature value of
exactly 0 places the single literal character `'0'` at column 45, leaving the
rest of the `RE` field (columns 41–50) blank — not the ten-character
fixed-point rendering — and, independently, a `CO2MX` value of exactly 0
places a single literal `'0'` at column 71 (the finalized line then ends
there).  Width hypotheses state that each integer field and, when nonzero,
each fixed-point field fits its slot, as the legacy layout requires; they
keep every placement in range, so the builder succeeds instead of raising
`IndexError`. -/
theorem build_record_3_1_zero_literal
    (x1 : Option Record_1_1) (x2 : Option Record_1_2) (x3 : Option Record_1_4)
    (x5 : Option Record_3_2) (x6 : Option Record_3_3a)
    (m ib np nm ip mu : ℤ) (reV co2V : ℚ)
    (hm : (intStr m).length ≤ 5) (hib : (intStr ib).length ≤ 5)
    (hnp : (intStr np).length ≤ 5) (hnm : (intStr nm).length ≤ 5)
    (hip : (intStr ip).length ≤ 5) (hmu : (intStr mu).length ≤ 2)
    (hre : (pyFixed reV 3).length ≤ 10) (hco2 : (pyFixed co2V 3).length ≤ 10) :
    ∃ s : Str,
      build_record_3_1 (Config.mk x1 x2 x3 (some (Record_3_1.mk (some m) (some ib)
          (some np) (some nm) (some ip) (some mu) (some reV) (some co2V))) x5 x6) =
        Except.ok s ∧
      (reV = 0 →
        (∀ j, 40 ≤ j → j < 50 → s[j]? = some (if j = 44 then '0' else ' ')) ∧
        (s.drop 40).take 10 ≠ fmt_float_f 0 10 3) ∧
      (co2V = 0 → s.length = 71 ∧ s[70]? = some '0') := by
  have e1 : (fmt_int m 5).length = 5 := by rw [fmt_int, padLeft_length]; omega
  have e2 : (fmt_int ib 5).length = 5 := by rw [fmt_int, padLeft_length]; omega
  have e3 : (fmt_int np 5).length = 5 := by rw [fmt_int, padLeft_length]; omega
  have e4 : (fmt_int nm 5).length = 5 := by rw [fmt_int, padLeft_length]; omega
  have e5 : (fmt_int ip 5).length = 5 := by rw [fmt_int, padLeft_length]; omega
  have e6 : (fmt_int mu 2).length = 2 := by rw [fmt_int, padLeft_length]; omega
  have eRE : (fmt_float_f reV 10 3).length = 10 := by
    rw [fmt_float_f, padLeft_length]; omega
  have eCO2 : (fmt_float_f co2V 10 3).length = 10 := by
    rw [fmt_float_f, padLeft_length]; omega
  set LA := setStr (setStr (setStr (setStr (setStr (setStr
    (make_line 80) 1 (fmt_int m 5)) 11 (fmt_int ib 5)) 21 (fmt_int np 5)) 26
    (fmt_int nm 5)) 31 (fmt_int ip 5)) 39 (fmt_int mu 2) with hLAdef
  have hLAlen : LA.length = 80 := by
    rw [hLAdef]; simp [setStr_length, make_line]
  have hfa : ∀ j, 40 ≤ j → j < 80 → LA[j]? = some ' ' := by
    intro j hj1 hj2
    rw [hLAdef, setStr_getElem_ge (by omega), setStr_getElem_ge (by omega),
      setStr_getElem_ge (by omega), setStr_getElem_ge (by omega),
      setStr_getElem_ge (by omega), setStr_getElem_ge (by omega), make_line]
    exact List.getElem?_replicate_of_lt (by omega)
  have hok : build_record_3_1 (Config.mk x1 x2 x3 (some (Record_3_1.mk (some m)
      (some ib) (some np) (some nm) (some ip) (some mu) (some reV) (some co2V)))
      x5 x6) =
      Except.ok (line_to_str
        (if co2V ≠ 0 then
          setStr (if reV ≠ 0 then setStr LA 41 (fmt_float_f reV 10 3)
            else setStr LA 45 ['0']) 71 (fmt_float_f co2V 10 3)
         else
          setStr (if reV ≠ 0 then setStr LA 41 (fmt_float_f reV 10 3)
            else setStr LA 45 ['0']) 71 ['0'])) := by
    rw [build_record_3_1]
    simp only [req_some, ok_bind, Option.getD_some]
    rw [optE_place_eq _ _ _ (by simp [make_line]; omega)]
    simp only [ok_bind]
    rw [optE_place_eq _ _ _ (by simp [setStr_length, make_line]; omega)]
    simp only [ok_bind]
    rw [optE_place_eq _ _ _ (by simp [setStr_length, make_line]; omega)]
    simp only [ok_bind]
    rw [optE_place_eq _ _ _ (by simp [setStr_length, make_line]; omega)]
    simp only [ok_bind]
    rw [optE_place_eq _ _ _ (by simp [setStr_length, make_line]; omega)]
    simp only [ok_bind]
    rw [optE_place_eq _ _ _ (by simp [setStr_length, make_line]; omega)]
    simp only [ok_bind]
    rw [← hLAdef]
    by_cases hre0 : reV ≠ 0
    · rw [if_pos hre0, if_pos hre0, optE_place_eq _ _ _ (by rw [eRE, hLAlen]; omega)]
      simp only [ok_bind]
      by_cases hco0 : co2V ≠ 0
      · rw [if_pos hco0, if_pos hco0,
          optE_place_eq _ _ _ (by rw [eCO2, setStr_length, hLAlen])]
        simp only [ok_bind, pure_ok]
      · rw [if_neg hco0, if_neg hco0, optE_place_eq _ _ _
          (by simp only [setStr_length, hLAlen, List.length_cons, List.length_nil]; omega)]
        simp only [ok_bind, pure_ok]
    · rw [if_neg hre0, if_neg hre0, optE_place_eq _ _ _
        (by simp only [hLAlen, List.length_cons, List.length_nil]; omega)]
      simp only [ok_bind]
      by_cases hco0 : co2V ≠ 0
      · rw [if_pos hco0, if_pos hco0,
          optE_place_eq _ _ _ (by rw [eCO2, setStr_length, hLAlen])]
        simp only [ok_bind, pure_ok]
      · rw [if_neg hco0, if_neg hco0, optE_place_eq _ _ _
          (by simp only [setStr_length, hLAlen, List.length_cons, List.length_nil]; omega)]
        simp only [ok_bind, pure_ok]
  refine ⟨_, hok, ?_, ?_⟩
  · -- the RE = 0 conclusions
    intro h0
    subst h0
    rw [if_neg (show ¬ ((0 : ℚ) ≠ 0) by simp)]
    have hLB : ∀ j, 40 ≤ j → j < 80 →
        (setStr LA 45 ['0'])[j]? = some (if j = 44 then '0' else ' ') := by
      intro j hj1 hj2
      by_cases h44 : j = 44
      · subst h44
        have h := @setStr_getElem_in LA 45 ['0'] 0 (by decide) (by rw [hLAlen]; norm_num)
        norm_num at h
        rw [if_pos rfl]
        exact h
      · rw [if_neg h44]
        rcases Nat.lt_or_ge j 44 with hlt | hge
        · rw [setStr_getElem_lt (by omega)]
          exact hfa j hj1 hj2
        · rw [setStr_getElem_ge (by simp; omega)]
          exact hfa j hj1 hj2
    have hLBlen : (setStr LA 45 ['0']).length = 80 := by
      rw [setStr_length, hLAlen]
    by_cases hco : co2V = 0
    · subst hco
      rw [if_neg (show ¬ ((0 : ℚ) ≠ 0) by simp)]
      have h70 : (setStr (setStr LA 45 ['0']) 71 ['0'])[70]? = some '0' := by
        have h := @setStr_getElem_in (setStr LA 45 ['0']) 71 ['0'] 0 (by decide)
          (by rw [hLBlen]; norm_num)
        norm_num at h
        exact h
      obtain ⟨hslen, hkeep⟩ := rstrip_keep_through h70 (by decide)
      have hAll : ∀ j, 40 ≤ j → j < 50 →
          (line_to_str (setStr (setStr LA 45 ['0']) 71 ['0']))[j]? =
            some (if j = 44 then '0' else ' ') := by
        intro j hj1 hj2
        simp only [line_to_str]
        rw [hkeep j (by omega), setStr_getElem_lt (by norm_num; omega)]
        exact hLB j hj1 (by omega)
      refine ⟨hAll, ?_⟩
      intro heq
      have h46 : (line_to_str (setStr (setStr LA 45 ['0']) 71 ['0']))[46]? =
          some ' ' := by
        have h := hAll 46 (by norm_num) (by norm_num)
        simpa using h
      have h6 : (((line_to_str (setStr (setStr LA 45 ['0']) 71 ['0'])).drop 40).take
          10)[6]? = some ' ' := by
        rw [List.getElem?_take_of_lt (by norm_num), List.getElem?_drop]
        exact h46
      rw [heq] at h6
      exact absurd h6 (by decide)
    · rw [if_pos hco]
      have eCO2 : (fmt_float_f co2V 10 3).length = 10 := by
        rw [fmt_float_f, padLeft_length]; omega
      have hpyL : 0 < (pyFixed co2V 3).length := pyFixed_length_pos co2V 3
      have h79a : (setStr (setStr LA 45 ['0']) 71 (fmt_float_f co2V 10 3))[79]? =
          (fmt_float_f co2V 10 3)[9]? := by
        have h := @setStr_getElem_in (setStr LA 45 ['0']) 71 (fmt_float_f co2V 10 3) 9
          (by omega) (by rw [hLBlen]; norm_num)
        norm_num at h
        exact h
      have h9idx : (fmt_float_f co2V 10 3)[9]? =
          (pyFixed co2V 3)[9 - (10 - (pyFixed co2V 3).length)]? := by
        rw [fmt_float_f, padLeft, List.getElem?_append_right (by simp; omega)]
        congr 1
        simp
      have hex : ∃ ch, (pyFixed co2V 3)[9 - (10 - (pyFixed co2V 3).length)]? = some ch :=
        ⟨_, List.getElem?_eq_getElem (by omega)⟩
      obtain ⟨ch, hch⟩ := hex
      have hnws : ch.isWhitespace = false := pyFixed_not_ws (List.getElem?_mem hch)
      have h79 : (setStr (setStr LA 45 ['0']) 71 (fmt_float_f co2V 10 3))[79]? =
          some ch := by rw [h79a, h9idx, hch]
      obtain ⟨hslen, hkeep⟩ := rstrip_keep_through h79 hnws
      have hAll : ∀ j, 40 ≤ j → j < 50 →
          (line_to_str (setStr (setStr LA 45 ['0']) 71
            (fmt_float_f co2V 10 3)))[j]? = some (if j = 44 then '0' else ' ') := by
        intro j hj1 hj2
        simp only [line_to_str]
        rw [hkeep j (by omega), setStr_getElem_lt (by norm_num; omega)]
        exact hLB j hj1 (by omega)
      refine ⟨hAll, ?_⟩
      intro heq
      have h46 : (line_to_str (setStr (setStr LA 45 ['0']) 71
          (fmt_float_f co2V 10 3)))[46]? = some ' ' := by
        have h := hAll 46 (by norm_num) (by norm_num)
        simpa using h
      have h6 : (((line_to_str (setStr (setStr LA 45 ['0']) 71
          (fmt_float_f co2V 10 3))).drop 40).take 10)[6]? = some ' ' := by
        rw [List.getElem?_take_of_lt (by norm_num), List.getElem?_drop]
        exact h46
      rw [heq] at h6
      exact absurd h6 (by decide)
  · -- the CO2MX = 0 conclusions
    intro h0
    subst h0
    rw [if_neg (show ¬ ((0 : ℚ) ≠ 0) by simp)]
    set LB := if reV ≠ 0 then setStr LA 41 (fmt_float_f reV 10 3)
      else setStr LA 45 ['0'] with hLBdef
    have hLBlen : LB.length = 80 := by
      rw [hLBdef]; split <;> rw [setStr_length, hLAlen]
    have hLBout : ∀ j, 50 ≤ j → j < 80 → LB[j]? = some ' ' := by
      intro j hj1 hj2
      rw [hLBdef]
      split
      · have eRE : (fmt_float_f reV 10 3).length = 10 := by
          rw [fmt_float_f, padLeft_length]; omega
        rw [setStr_getElem_ge (by omega)]
        exact hfa j (by omega) hj2
      · rw [setStr_getElem_ge (by simp; omega)]
        exact hfa j (by omega) hj2
    have hL2len : (setStr LB 71 ['0']).length = 80 := by
      rw [setStr_length, hLBlen]
    have h70 : (setStr LB 71 ['0'])[70]? = some '0' := by
      have h := @setStr_getElem_in LB 71 ['0'] 0 (by decide) (by rw [hLBlen]; norm_num)
      norm_num at h
      exact h
    have hupper : ∀ j, 71 ≤ j → j < 80 → (setStr LB 71 ['0'])[j]? = some ' ' := by
      intro j hj1 hj2
      rw [setStr_getElem_ge (by simp; omega)]
      exact hLBout j (by omega) hj2
    have hws : ∀ x ∈ (setStr LB 71 ['0']).drop 71, x.isWhitespace = true := by
      intro x hx
      obtain ⟨k, hk⟩ := List.mem_iff_getElem?.1 hx
      have hkb : k < 9 := by
        obtain ⟨hlt, _⟩ := List.getElem?_eq_some_iff.1 hk
        rw [List.length_drop, hL2len] at hlt
        omega
      rw [List.getElem?_drop] at hk
      rw [hupper (71 + k) (by omega) (by omega)] at hk
      have hx' : x = ' ' := by injection hk with h'; exact h'.symm
      rw [hx']
      decide
    have hsplit : setStr LB 71 ['0'] =
        (setStr LB 71 ['0']).take 71 ++ (setStr LB 71 ['0']).drop 71 :=
      (List.take_append_drop 71 _).symm
    have htlen : ((setStr LB 71 ['0']).take 71).length = 71 :=
      List.length_take_of_le (by omega)
    have ht70 : ((setStr LB 71 ['0']).take 71)[70]? = some '0' := by
      rw [List.getElem?_take_of_lt (by omega)]
      exact h70
    have hs : line_to_str (setStr LB 71 ['0']) = (setStr LB 71 ['0']).take 71 := by
      simp only [line_to_str]
      conv_lhs => rw [hsplit]
      rw [rstrip_append_ws hws]
      exact rstrip_eq_self_of_last_nonws htlen ht70 (by decide)
    rw [hs]
    exact ⟨htlen, ht70⟩

/-- C4 witness: the zero-literal theorem at a concrete record with
`RE = CO2MX = 0`. -/
theorem build_record_3_1_zero_literal_witness :
    ∃ s : Str,
      build_record_3_1 (Config.mk none none none (some (Record_3_1.mk (some 1) (some 0)
          (some 0) (some 7) (some 0) (some 0) (some 0) (some 0))) none none) =
        Except.ok s ∧
      ((0 : ℚ) = 0 →
        (∀ j, 40 ≤ j → j < 50 → s[j]? = some (if j = 44 then '0' else ' ')) ∧
        (s.drop 40).take 10 ≠ fmt_float_f 0 10 3) ∧
      ((0 : ℚ) = 0 → s.length = 71 ∧ s[70]? = some '0') :=
  build_record_3_1_zero_literal none none none none none 1 0 0 7 0 0 0 0
    (by decide) (by decide) (by decide) (by decide) (by decide) (by decide)
    (by decide) (by decide)

/-! ### Claim C10: TBOUND and HBOUND are placed left-aligned at column 1 -/

theorem fmt_int_one_eq_intStr (v : ℤ) : fmt_int v 1 = intStr v := by
  rw [fmt_int, padLeft]
  have := intStr_length_pos v
  have h0 : 1 - (intStr v).length = 0 := by omega
  rw [h0]
  simp

theorem intStr_zero_nonws (v : ℤ) :
    ∃ ch, (intStr v)[0]? = some ch ∧ ch.isWhitespace = false := by
  have := intStr_length_pos v
  obtain ⟨ch, hch⟩ : ∃ ch, (intStr v)[0]? = some ch :=
    ⟨_, List.getElem?_eq_getElem (by omega)⟩
  exact ⟨ch, hch, intStr_not_ws (List.getElem?_mem hch)⟩

theorem fmt_float_f_nine_nonws (v : ℚ) (d : Nat) :
    ∃ ch, (fmt_float_f v 10 d)[9]? = some ch ∧ ch.isWhitespace = false := by
  have hp := pyFixed_length_pos v d
  have h9 : (fmt_float_f v 10 d)[9]? =
      (pyFixed v d)[9 - (10 - (pyFixed v d).length)]? := by
    rw [fmt_float_f, padLeft, List.getElem?_append_right (by simp; omega)]
    congr 1
    simp
  obtain ⟨ch, hch⟩ : ∃ ch, (pyFixed v d)[9 - (10 - (pyFixed v d).length)]? = some ch :=
    ⟨_, List.getElem?_eq_getElem (by omega)⟩
  exact ⟨ch, by rw [h9, hch], pyFixed_not_ws (List.getElem?_mem hch)⟩

/-- C10: the surface-properties builder writes `TBOUND` rendered `f"{…:.1f}"`
(natural width, one fractional digit) left-aligned at column 1 with the rest
of columns up to 11 blank, and the altitude-boundary builder does the same
for `HBOUND` within columns 1–10 — not right-aligned in a ten-character field
as the generic fixed-point convention (`fmt_float_f … 10 1`) would produce,
as the concrete contrast for the value 288.0 shows.  The width hypotheses
(each field fits its slot, at most 16 emissivity values) keep every placement
of the two records inside their buffers, so both builders succeed instead of
raising `IndexError`. -/
theorem tbound_hbound_left_aligned
    (x1 : Option Record_1_1) (x2 : Option Record_1_2) (x4 : Option Record_3_1)
    (x6 : Option Record_3_3a)
    (tb : ℚ) (ie irf : ℤ) (sem : Option (List ℚ)) (hb ht : ℚ)
    (htb : (pyFixed tb 1).length ≤ 10) (hhb : (pyFixed hb 1).length ≤ 10)
    (hie : (intStr ie).length ≤ 1) (hirf : (intStr irf).length ≤ 1)
    (hsem : (sem.getD []).length ≤ 16)
    (hsemw : ∀ v ∈ sem.getD [], (pyFixed v 2).length ≤ 5)
    (hht : (pyFixed ht 1).length ≤ 10) :
    (∃ s : Str,
      build_record_1_4 (Config.mk x1 x2 (some (Record_1_4.mk (some tb) (some ie)
          (some irf) sem)) x4 (some (Record_3_2.mk (some hb) (some ht))) x6) =
        Except.ok s ∧
      s.take (pyFixed tb 1).length = pyFixed tb 1 ∧
      (∀ j, (pyFixed tb 1).length ≤ j → j < 11 → s[j]? = some ' ')) ∧
    (∃ s2 : Str,
      build_record_3_2 (Config.mk x1 x2 (some (Record_1_4.mk (some tb) (some ie)
          (some irf) sem)) x4 (some (Record_3_2.mk (some hb) (some ht))) x6) =
        Except.ok s2 ∧
      s2.take (pyFixed hb 1).length = pyFixed hb 1 ∧
      (∀ j, (pyFixed hb 1).length ≤ j → j < 10 → s2[j]? = some ' ')) ∧
    (pyFixed (mkRat 288 1) 1 = "288.0".toList ∧
      fmt_float_f (mkRat 288 1) 10 1 = "     288.0".toList) := by
  have hn1 : 0 < (pyFixed tb 1).length := pyFixed_length_pos tb 1
  have hm1 : 0 < (pyFixed hb 1).length := pyFixed_length_pos hb 1
  have hfe : (fmt_int ie 1).length = 1 := by rw [fmt_int, padLeft_length]; omega
  have hfr : (fmt_int irf 1).length = 1 := by rw [fmt_int, padLeft_length]; omega
  have hft : (fmt_float_f ht 10 1).length = 10 := by
    rw [fmt_float_f, padLeft_length]; omega
  refine ⟨?_, ?_, by decide, by decide⟩
  · -- record 1.4
    have hok : build_record_1_4 (Config.mk x1 x2 (some (Record_1_4.mk (some tb) (some ie)
        (some irf) sem)) x4 (some (Record_3_2.mk (some hb) (some ht))) x6) =
        Except.ok (line_to_str (setSemissFrom (setStr (setStr (setStr
          (make_line 95) 1 (pyFixed tb 1)) 12 (fmt_int ie 1)) 15 (fmt_int irf 1)) 0
          (sem.getD []))) := by
      rw [build_record_1_4]
      simp only [req_some, ok_bind]
      rw [optE_place_eq _ _ _ (by simp [make_line]; omega)]
      simp only [ok_bind]
      rw [optE_place_eq _ _ _ (by simp [setStr_length, make_line]; omega)]
      simp only [ok_bind]
      rw [optE_place_eq _ _ _ (by simp [setStr_length, make_line]; omega)]
      simp only [ok_bind]
      rw [placeSemissFrom_eq _ _ _ (by simp [setStr_length, make_line]) (by omega) hsemw]
      simp only [optE_some, ok_bind, pure_ok]
    refine ⟨_, hok, ?_⟩
    obtain ⟨ch, hch0, hchw⟩ := intStr_zero_nonws ie
    have hL1len : (setStr (make_line 95) 1 (pyFixed tb 1)).length = 95 := by
      simp [setStr_length, make_line]
    have h11 : (setSemissFrom (setStr (setStr (setStr
        (make_line 95) 1 (pyFixed tb 1)) 12 (fmt_int ie 1)) 15 (fmt_int irf 1)) 0
        (sem.getD []))[11]? = some ch := by
      rw [setSemissFrom_getElem_lt (by norm_num), setStr_getElem_lt (by norm_num)]
      have h := @setStr_getElem_in (setStr (make_line 95) 1 (pyFixed tb 1)) 12
        (fmt_int ie 1) 0
        (by rw [fmt_int_one_eq_intStr]; exact intStr_length_pos ie)
        (by rw [hL1len]; norm_num)
      norm_num at h
      rw [h, fmt_int_one_eq_intStr]
      exact hch0
    obtain ⟨hslen, hkeep⟩ := rstrip_keep_through h11 hchw
    constructor
    · apply List.ext_getElem?
      intro i
      by_cases hi : i < (pyFixed tb 1).length
      · rw [List.getElem?_take_of_lt hi]
        simp only [line_to_str]
        rw [hkeep i (by omega), setSemissFrom_getElem_lt (by omega),
          setStr_getElem_lt (by omega), setStr_getElem_lt (by omega)]
        have h := @setStr_getElem_in (make_line 95) 1 (pyFixed tb 1) i hi
          (by simp [make_line]; omega)
        norm_num at h
        exact h
      · push_neg at hi
        rw [List.getElem?_eq_none hi, List.getElem?_eq_none]
        rw [List.length_take]
        omega
    · intro j hj1 hj2
      simp only [line_to_str]
      rw [hkeep j (by omega), setSemissFrom_getElem_lt (by omega),
        setStr_getElem_lt (by omega), setStr_getElem_lt (by omega),
        setStr_getElem_ge (by norm_num; omega), make_line]
      exact List.getElem?_replicate_of_lt (by omega)
  · -- record 3.2
    have hok2 : build_record_3_2 (Config.mk x1 x2 (some (Record_1_4.mk (some tb) (some ie)
        (some irf) sem)) x4 (some (Record_3_2.mk (some hb) (some ht))) x6) =
        Except.ok (line_to_str (setStr (setStr (make_line 20) 1 (pyFixed hb 1)) 11
          (fmt_float_f ht 10 1))) := by
      rw [build_record_3_2]
      simp only [req_some, ok_bind]
      rw [optE_place_eq _ _ _ (by simp [make_line]; omega)]
      simp only [ok_bind]
      rw [optE_place_eq _ _ _ (by simp [setStr_length, make_line]; omega)]
      simp only [ok_bind, pure_ok]
    refine ⟨_, hok2, ?_⟩
    obtain ⟨ch2, hch2, hch2w⟩ := fmt_float_f_nine_nonws ht 1
    have hL1len : (setStr (make_line 20) 1 (pyFixed hb 1)).length = 20 := by
      simp [setStr_length, make_line]
    have h19 : (setStr (setStr (make_line 20) 1 (pyFixed hb 1)) 11
        (fmt_float_f ht 10 1))[19]? = some ch2 := by
      have h := @setStr_getElem_in (setStr (make_line 20) 1 (pyFixed hb 1)) 11
        (fmt_float_f ht 10 1) 9
        (by rw [fmt_float_f, padLeft_length]; omega)
        (by rw [hL1len]; norm_num)
      norm_num at h
      rw [h]
      exact hch2
    obtain ⟨hslen2, hkeep2⟩ := rstrip_keep_through h19 hch2w
    constructor
    · apply List.ext_getElem?
      intro i
      by_cases hi : i < (pyFixed hb 1).length
      · rw [List.getElem?_take_of_lt hi]
        simp only [line_to_str]
        rw [hkeep2 i (by omega), setStr_getElem_lt (by omega)]
        have h := @setStr_getElem_in (make_line 20) 1 (pyFixed hb 1) i hi
          (by simp [make_line]; omega)
        norm_num at h
        exact h
      · push_neg at hi
        rw [List.getElem?_eq_none hi, List.getElem?_eq_none]
        rw [List.length_take]
        omega
    · intro j hj1 hj2
      simp only [line_to_str]
      rw [hkeep2 j (by omega), setStr_getElem_lt (by omega),
        setStr_getElem_ge (by norm_num; omega), make_line]
      exact List.getElem?_replicate_of_lt (by omega)

/-- C10 witness: the left-alignment theorem at `TBOUND = 288`, `HBOUND = 0`. -/
theorem tbound_hbound_left_aligned_witness :
    (∃ s : Str,
      build_record_1_4 (Config.mk none none (some (Record_1_4.mk (some 288) (some 1)
          (some 0) (some []))) none (some (Record_3_2.mk (some 0) (some 70))) none) =
        Except.ok s ∧
      s.take (pyFixed 288 1).length = pyFixed 288 1 ∧
      (∀ j, (pyFixed 288 1).length ≤ j → j < 11 → s[j]? = some ' ')) ∧
    (∃ s2 : Str,
      build_record_3_2 (Config.mk none none (some (Record_1_4.mk (some 288) (some 1)
          (some 0) (some []))) none (some (Record_3_2.mk (some 0) (some 70))) none) =
        Except.ok s2 ∧
      s2.take (pyFixed 0 1).length = pyFixed 0 1 ∧
      (∀ j, (pyFixed 0 1).length ≤ j → j < 10 → s2[j]? = some ' ')) ∧
    (pyFixed (mkRat 288 1) 1 = "288.0".toList ∧
      fmt_float_f (mkRat 288 1) 10 1 = "     288.0".toList) :=
  tbound_hbound_left_aligned none none none none 288 1 0 (some []) 0 70
    (by decide) (by decide) (by decide) (by decide) (by decide)
    (by intro v hv; exact absurd hv (List.not_mem_nil v)) (by decide)

/-! ### No builder output contains a newline -/

theorem noNl_make_line (n : Nat) : '\n' ∉ make_line n := by
  intro h
  simp [make_line] at h

theorem noNl_setStr {l : Line} {t : Str} (c1 : Nat)
    (hl : '\n' ∉ l) (ht : '\n' ∉ t) : '\n' ∉ setStr l c1 t := by
  intro h
  rcases mem_setStr h with h' | h'
  · exact hl h'
  · exact ht h'

theorem noNl_line_to_str {l : Line} (h : '\n' ∉ l) : '\n' ∉ line_to_str l :=
  nl_not_mem_rstrip h

theorem noNl_setSemissFrom :
    ∀ (vs : List ℚ) (l : Line) (i : Nat), '\n' ∉ l → '\n' ∉ setSemissFrom l i vs := by
  intro vs
  induction vs with
  | nil => intro l i hl; exact hl
  | cons v vs ih =>
    intro l i hl
    exact ih _ _ (noNl_setStr _ hl (nl_not_mem_fmt_float_f v 5 2))

theorem noNl_place_some {l l2 : Line} {c1 : Nat} {t : Str}
    (h : place_str l c1 t = some l2) (hl : '\n' ∉ l) (ht : '\n' ∉ t) : '\n' ∉ l2 := by
  rw [place_str_some_eq h]
  exact noNl_setStr c1 hl ht

/-! ### Inverting a successful builder: every required field was present (its
`missing…` block is empty), every placement stayed in range, and the finished
line contains no newline -/

theorem build_record_1_1_ok_inv {cfg : Config} {hdr : List Str}
    (h : build_record_1_1 cfg = Except.ok hdr) : missing1_1 cfg.record_1_1 = [] := by
  rw [build_record_1_1] at h
  rcases hrec : cfg.record_1_1 with _ | r
  · rw [hrec] at h; simp at h
  rw [hrec] at h
  simp only [req_some, ok_bind] at h
  rcases hf1 : r.header with _ | h1
  · rw [hf1] at h; simp at h
  rw [hf1] at h
  simp only [req_some, ok_bind] at h
  rcases hf2 : r.control_line with _ | h2
  · rw [hf2] at h; simp at h
  simp [missing1_1, hf1, hf2]

theorem build_record_1_2_ok_inv {cfg : Config} {l : Str}
    (h : build_record_1_2 cfg = Except.ok l) :
    missing1_2 cfg.record_1_2 = [] ∧ '\n' ∉ l := by
  rw [build_record_1_2] at h
  rcases hrec : cfg.record_1_2 with _ | r
  · rw [hrec] at h; simp at h
  rw [hrec] at h
  simp only [req_some, ok_bind] at h
  rcases hf1 : r.IAER with _ | a1
  · rw [hf1] at h; simp at h
  rw [hf1] at h
  simp only [req_some, ok_bind] at h
  rcases hp1 : place_str (make_line 95) 19 (fmt_int a1 2) with _ | L1
  · rw [hp1] at h; simp at h
  rw [hp1] at h
  simp only [optE_some, ok_bind] at h
  rcases hf2 : r.IATM with _ | a2
  · rw [hf2] at h; simp at h
  rw [hf2] at h
  simp only [req_some, ok_bind] at h
  rcases hp2 : place_str L1 50 (fmt_int a2 1) with _ | L2
  · rw [hp2] at h; simp at h
  rw [hp2] at h
  simp only [optE_some, ok_bind] at h
  rcases hf3 : r.IXSECT with _ | a3
  · rw [hf3] at h; simp at h
  rw [hf3] at h
  simp only [req_some, ok_bind] at h
  rcases hp3 : place_str L2 70 (fmt_int a3 1) with _ | L3
  · rw [hp3] at h; simp at h
  rw [hp3] at h
  simp only [optE_some, ok_bind] at h
  rcases hf4 : r.NUMANGS with _ | a4
  · rw [hf4] at h; simp at h
  rw [hf4] at h
  simp only [req_some, ok_bind] at h
  rcases hp4 : place_str L3 84 (fmt_int a4 2) with _ | L4
  · rw [hp4] at h; simp at h
  rw [hp4] at h
  simp only [optE_some, ok_bind] at h
  rcases hf5 : r.IOUT with _ | a5
  · rw [hf5] at h; simp at h
  rw [hf5] at h
  simp only [req_some, ok_bind] at h
  rcases hp5 : place_str L4 88 (fmt_int a5 3) with _ | L5
  · rw [hp5] at h; simp at h
  rw [hp5] at h
  simp only [optE_some, ok_bind] at h
  rcases hf6 : r.IDRV with _ | a6
  · rw [hf6] at h; simp at h
  rw [hf6] at h
  simp only [req_some, ok_bind] at h
  rcases hp6 : place_str L5 92 (fmt_int a6 1) with _ | L6
  · rw [hp6] at h; simp at h
  rw [hp6] at h
  simp only [optE_some, ok_bind] at h
  rcases hf7 : r.IMCA with _ | a7
  · rw [hf7] at h; simp at h
  rw [hf7] at h
  simp only [req_some, ok_bind] at h
  rcases hp7 : place_str L6 94 (fmt_int a7 1) with _ | L7
  · rw [hp7] at h; simp at h
  rw [hp7] at h
  simp only [optE_some, ok_bind] at h
  rcases hf8 : r.ICLD with _ | a8
  · rw [hf8] at h; simp at h
  rw [hf8] at h
  simp only [req_some, ok_bind] at h
  rcases hp8 : place_str L7 95 (fmt_int a8 1) with _ | L8
  · rw [hp8] at h; simp at h
  rw [hp8] at h
  simp only [optE_some, ok_bind, pure_ok, Except.ok.injEq] at h
  subst h
  have n1 := noNl_place_some hp1 (noNl_make_line 95) (nl_not_mem_fmt_int a1 2)
  have n2 := noNl_place_some hp2 n1 (nl_not_mem_fmt_int a2 1)
  have n3 := noNl_place_some hp3 n2 (nl_not_mem_fmt_int a3 1)
  have n4 := noNl_place_some hp4 n3 (nl_not_mem_fmt_int a4 2)
  have n5 := noNl_place_some hp5 n4 (nl_not_mem_fmt_int a5 3)
  have n6 := noNl_place_some hp6 n5 (nl_not_mem_fmt_int a6 1)
  have n7 := noNl_place_some hp7 n6 (nl_not_mem_fmt_int a7 1)
  have n8 := noNl_place_some hp8 n7 (nl_not_mem_fmt_int a8 1)
  exact ⟨by simp [missing1_2, hf1, hf2, hf3, hf4, hf5, hf6, hf7, hf8],
    noNl_line_to_str n8⟩

theorem build_record_1_4_ok_inv {cfg : Config} {l : Str}
    (h : build_record_1_4 cfg = Except.ok l) :
    missing1_4 cfg.record_1_4 = [] ∧ '\n' ∉ l := by
  rw [build_record_1_4] at h
  rcases hrec : cfg.record_1_4 with _ | r
  · rw [hrec] at h; simp at h
  rw [hrec] at h
  simp only [req_some, ok_bind] at h
  rcases hf1 : r.TBOUND with _ | tb
  · rw [hf1] at h; simp at h
  rw [hf1] at h
  simp only [req_some, ok_bind] at h
  rcases hp1 : place_str (make_line 95) 1 (pyFixed tb 1) with _ | L1
  · rw [hp1] at h; simp at h
  rw [hp1] at h
  simp only [optE_some, ok_bind] at h
  rcases hf2 : r.IEMIS with _ | ie
  · rw [hf2] at h; simp at h
  rw [hf2] at h
  simp only [req_some, ok_bind] at h
  rcases hp2 : place_str L1 12 (fmt_int ie 1) with _ | L2
  · rw [hp2] at h; simp at h
  rw [hp2] at h
  simp only [optE_some, ok_bind] at h
  rcases hf3 : r.IREFLECT with _ | irf
  · rw [hf3] at h; simp at h
  rw [hf3] at h
  simp only [req_some, ok_bind] at h
  rcases hp3 : place_str L2 15 (fmt_int irf 1) with _ | L3
  · rw [hp3] at h; simp at h
  rw [hp3] at h
  simp only [optE_some, ok_bind] at h
  rcases hp4 : placeSemissFrom L3 0 (r.SEMISS.getD []) with _ | L4
  · rw [hp4] at h; simp at h
  rw [hp4] at h
  simp only [optE_some, ok_bind, pure_ok, Except.ok.injEq] at h
  subst h
  have n1 := noNl_place_some hp1 (noNl_make_line 95) (nl_not_mem_pyFixed tb 1)
  have n2 := noNl_place_some hp2 n1 (nl_not_mem_fmt_int ie 1)
  have n3 := noNl_place_some hp3 n2 (nl_not_mem_fmt_int irf 1)
  have n4 : '\n' ∉ L4 := by
    rw [placeSemissFrom_some_eq hp4]
    exact noNl_setSemissFrom _ _ _ n3
  exact ⟨by simp [missing1_4, hf1, hf2, hf3], noNl_line_to_str n4⟩

theorem build_record_3_1_ok_inv {cfg : Config} {l : Str}
    (h : build_record_3_1 cfg = Except.ok l) :
    missing3_1 cfg.record_3_1 = [] ∧ '\n' ∉ l := by
  rw [build_record_3_1] at h
  rcases hrec : cfg.record_3_1 with _ | r
  · rw [hrec] at h; simp at h
  rw [hrec] at h
  simp only [req_some, ok_bind] at h
  rcases hf1 : r.MODEL with _ | m
  · rw [hf1] at h; simp at h
  rw [hf1] at h
  simp only [req_some, ok_bind] at h
  rcases hp1 : place_str (make_line 80) 1 (fmt_int m 5) with _ | L1
  · rw [hp1] at h; simp at h
  rw [hp1] at h
  simp only [optE_some, ok_bind] at h
  rcases hf2 : r.IBMAX with _ | ib
  · rw [hf2] at h; simp at h
  rw [hf2] at h
  simp only [req_some, ok_bind] at h
  rcases hp2 : place_str L1 11 (fmt_int ib 5) with _ | L2
  · rw [hp2] at h; simp at h
  rw [hp2] at h
  simp only [optE_some, ok_bind] at h
  rcases hf3 : r.NOPRNT with _ | np
  · rw [hf3] at h; simp at h
  rw [hf3] at h
  simp only [req_some, ok_bind] at h
  rcases hp3 : place_str L2 21 (fmt_int np 5) with _ | L3
  · rw [hp3] at h; simp at h
  rw [hp3] at h
  simp only [optE_some, ok_bind] at h
  rcases hf4 : r.NMOL with _ | nm
  · rw [hf4] at h; simp at h
  rw [hf4] at h
  simp only [req_some, ok_bind] at h
  rcases hp4 : place_str L3 26 (fmt_int nm 5) with _ | L4
  · rw [hp4] at h; simp at h
  rw [hp4] at h
  simp only [optE_some, ok_bind] at h
  rcases hf5 : r.IPUNCH with _ | ip
  · rw [hf5] at h; simp at h
  rw [hf5] at h
  simp only [req_some, ok_bind] at h
  rcases hp5 : place_str L4 31 (fmt_int ip 5) with _ | L5
  · rw [hp5] at h; simp at h
  rw [hp5] at h
  simp only [optE_some, ok_bind] at h
  rcases hf6 : r.MUNITS with _ | mu
  · rw [hf6] at h; simp at h
  rw [hf6] at h
  simp only [req_some, ok_bind] at h
  rcases hp6 : place_str L5 39 (fmt_int mu 2) with _ | L6
  · rw [hp6] at h; simp at h
  rw [hp6] at h
  simp only [optE_some, ok_bind] at h
  have n1 := noNl_place_some hp1 (noNl_make_line 80) (nl_not_mem_fmt_int m 5)
  have n2 := noNl_place_some hp2 n1 (nl_not_mem_fmt_int ib 5)
  have n3 := noNl_place_some hp3 n2 (nl_not_mem_fmt_int np 5)
  have n4 := noNl_place_some hp4 n3 (nl_not_mem_fmt_int nm 5)
  have n5 := noNl_place_some hp5 n4 (nl_not_mem_fmt_int ip 5)
  have n6 := noNl_place_some hp6 n5 (nl_not_mem_fmt_int mu 2)
  by_cases hre : r.RE.getD 0 ≠ 0
  · rw [if_pos hre] at h
    rcases hq1 : place_str L6 41 (fmt_float_f (r.RE.getD 0) 10 3) with _ | L7
    · rw [hq1] at h; simp at h
    rw [hq1] at h
    simp only [optE_some, ok_bind] at h
    have n7 := noNl_place_some hq1 n6 (nl_not_mem_fmt_float_f _ 10 3)
    by_cases hco : r.CO2MX.getD 0 ≠ 0
    · rw [if_pos hco] at h
      rcases hq2 : place_str L7 71 (fmt_float_f (r.CO2MX.getD 0) 10 3) with _ | L8
      · rw [hq2] at h; simp at h
      rw [hq2] at h
      simp only [optE_some, ok_bind, pure_ok, Except.ok.injEq] at h
      subst h
      have n8 := noNl_place_some hq2 n7 (nl_not_mem_fmt_float_f _ 10 3)
      exact ⟨by simp [missing3_1, hf1, hf2, hf3, hf4, hf5, hf6], noNl_line_to_str n8⟩
    · rw [if_neg hco] at h
      rcases hq2 : place_str L7 71 ['0'] with _ | L8
      · rw [hq2] at h; simp at h
      rw [hq2] at h
      simp only [optE_some, ok_bind, pure_ok, Except.ok.injEq] at h
      subst h
      have n8 := noNl_place_some hq2 n7 (by decide)
      exact ⟨by simp [missing3_1, hf1, hf2, hf3, hf4, hf5, hf6], noNl_line_to_str n8⟩
  · rw [if_neg hre] at h
    rcases hq1 : place_str L6 45 ['0'] with _ | L7
    · rw [hq1] at h; simp at h
    rw [hq1] at h
    simp only [optE_some, ok_bind] at h
    have n7 := noNl_place_some hq1 n6 (by decide)
    by_cases hco : r.CO2MX.getD 0 ≠ 0
    · rw [if_pos hco] at h
      rcases hq2 : place_str L7 71 (fmt_float_f (r.CO2MX.getD 0) 10 3) with _ | L8
      · rw [hq2] at h; simp at h
      rw [hq2] at h
      simp only [optE_some, ok_bind, pure_ok, Except.ok.injEq] at h
      subst h
      have n8 := noNl_place_some hq2 n7 (nl_not_mem_fmt_float_f _ 10 3)
      exact ⟨by simp [missing3_1, hf1, hf2, hf3, hf4, hf5, hf6], noNl_line_to_str n8⟩
    · rw [if_neg hco] at h
      rcases hq2 : place_str L7 71 ['0'] with _ | L8
      · rw [hq2] at h; simp at h
      rw [hq2] at h
      simp only [optE_some, ok_bind, pure_ok, Except.ok.injEq] at h
      subst h
      have n8 := noNl_place_some hq2 n7 (by decide)
      exact ⟨by simp [missing3_1, hf1, hf2, hf3, hf4, hf5, hf6], noNl_line_to_str n8⟩

theorem build_record_3_2_ok_inv {cfg : Config} {l : Str}
    (h : build_record_3_2 cfg = Except.ok l) :
    missing3_2 cfg.record_3_2 = [] ∧ '\n' ∉ l := by
  rw [build_record_3_2] at h
  rcases hrec : cfg.record_3_2 with _ | r
  · rw [hrec] at h; simp at h
  rw [hrec] at h
  simp only [req_some, ok_bind] at h
  rcases hf1 : r.HBOUND with _ | hb
  · rw [hf1] at h; simp at h
  rw [hf1] at h
  simp only [req_some, ok_bind] at h
  rcases hp1 : place_str (make_line 20) 1 (pyFixed hb 1) with _ | L1
  · rw [hp1] at h; simp at h
  rw [hp1] at h
  simp only [optE_some, ok_bind] at h
  rcases hf2 : r.HTOA with _ | ht
  · rw [hf2] at h; simp at h
  rw [hf2] at h
  simp only [req_some, ok_bind] at h
  rcases hp2 : place_str L1 11 (fmt_float_f ht 10 1) with _ | L2
  · rw [hp2] at h; simp at h
  rw [hp2] at h
  simp only [optE_some, ok_bind, pure_ok, Except.ok.injEq] at h
  subst h
  have n1 := noNl_place_some hp1 (noNl_make_line 20) (nl_not_mem_pyFixed hb 1)
  have n2 := noNl_place_some hp2 n1 (nl_not_mem_fmt_float_f ht 10 1)
  exact ⟨by simp [missing3_2, hf1, hf2], noNl_line_to_str n2⟩

theorem build_record_3_3a_ok_inv {cfg : Config} {l : Str}
    (h : build_record_3_3a cfg = Except.ok l) :
    missing3_3a cfg.record_3_3a = [] ∧ '\n' ∉ l := by
  rw [build_record_3_3a] at h
  rcases hrec : cfg.record_3_3a with _ | r
  · rw [hrec] at h; simp at h
  rw [hrec] at h
  simp only [req_some, ok_bind] at h
  rcases hp1 : place_str (make_line 50) 1 (fmt_float_f (r.AVTRAT.getD 0) 10 0) with _ | L1
  · rw [hp1] at h; simp at h
  rw [hp1] at h
  simp only [optE_some, ok_bind] at h
  rcases hp2 : place_str L1 11 (fmt_float_f (r.TDIFF1.getD 0) 10 0) with _ | L2
  · rw [hp2] at h; simp at h
  rw [hp2] at h
  simp only [optE_some, ok_bind] at h
  rcases hp3 : place_str L2 21 (fmt_float_f (r.TDIFF2.getD 0) 10 0) with _ | L3
  · rw [hp3] at h; simp at h
  rw [hp3] at h
  simp only [optE_some, ok_bind] at h
  rcases hp4 : place_str L3 31 (fmt_float_f (r.ALTD1.getD 0) 10 0) with _ | L4
  · rw [hp4] at h; simp at h
  rw [hp4] at h
  simp only [optE_some, ok_bind] at h
  rcases hp5 : place_str L4 41 (fmt_float_f (r.ALTD2.getD 0) 10 0) with _ | L5
  · rw [hp5] at h; simp at h
  rw [hp5] at h
  simp only [optE_some, ok_bind, pure_ok, Except.ok.injEq] at h
  subst h
  have n1 := noNl_place_some hp1 (noNl_make_line 50) (nl_not_mem_fmt_float_f _ 10 0)
  have n2 := noNl_place_some hp2 n1 (nl_not_mem_fmt_float_f _ 10 0)
  have n3 := noNl_place_some hp3 n2 (nl_not_mem_fmt_float_f _ 10 0)
  have n4 := noNl_place_some hp4 n3 (nl_not_mem_fmt_float_f _ 10 0)
  have n5 := noNl_place_some hp5 n4 (nl_not_mem_fmt_float_f _ 10 0)
  exact ⟨by simp [missing3_3a], noNl_line_to_str n5⟩

theorem build_record_1_2_noNl {cfg : Config} {l : Str}
    (h : build_record_1_2 cfg = Except.ok l) : '\n' ∉ l :=
  (build_record_1_2_ok_inv h).2

theorem build_record_1_4_noNl {cfg : Config} {l : Str}
    (h : build_record_1_4 cfg = Except.ok l) : '\n' ∉ l :=
  (build_record_1_4_ok_inv h).2

theorem build_record_3_1_noNl {cfg : Config} {l : Str}
    (h : build_record_3_1 cfg = Except.ok l) : '\n' ∉ l :=
  (build_record_3_1_ok_inv h).2

theorem build_record_3_2_noNl {cfg : Config} {l : Str}
    (h : build_record_3_2 cfg = Except.ok l) : '\n' ∉ l :=
  (build_record_3_2_ok_inv h).2

theorem build_record_3_3a_noNl {cfg : Config} {l : Str}
    (h : build_record_3_3a cfg = Except.ok l) : '\n' ∉ l :=
  (build_record_3_3a_ok_inv h).2


/-! ### The assembler under known builder results -/

theorem generate_eq_of_builds (cfg : Config) (h1 h2 l12 l14 l31 l32 l33 : Str)
    (hb11 : build_record_1_1 cfg = Except.ok [h1, h2])
    (hb12 : build_record_1_2 cfg = Except.ok l12)
    (hb14 : build_record_1_4 cfg = Except.ok l14)
    (h12ex : ∃ r12 : Record_1_2, cfg.record_1_2 = some r12 ∧ r12.IATM = some 1)
    (hb31 : build_record_3_1 cfg = Except.ok l31)
    (hb32 : build_record_3_2 cfg = Except.ok l32)
    (h31ex : ∃ r31 : Record_3_1, cfg.record_3_1 = some r31 ∧ r31.IBMAX = some 0)
    (hb33 : build_record_3_3a cfg = Except.ok l33) :
    generate_input_rrtm cfg =
      Except.ok (joinNl [h1, h2, l12, l14, l31, l32, l33, []] ++ ['\n']) := by
  obtain ⟨r12, hr12, hIATM⟩ := h12ex
  obtain ⟨r31, hr31, hIBMAX⟩ := h31ex
  rw [generate_input_rrtm, hb11, ok_bind, hb12, ok_bind, hb14, ok_bind, hr12, req_some,
    ok_bind, hIATM, req_some, ok_bind, if_pos rfl, hb31, ok_bind, hb32, ok_bind, hr31,
    req_some, ok_bind, hIBMAX]
  simp [hb33]

theorem generate_eq_of_builds_noatm (cfg : Config) (h1 h2 l12 l14 : Str)
    (hb11 : build_record_1_1 cfg = Except.ok [h1, h2])
    (hb12 : build_record_1_2 cfg = Except.ok l12)
    (hb14 : build_record_1_4 cfg = Except.ok l14)
    (h12ex : ∃ r12 : Record_1_2, cfg.record_1_2 = some r12 ∧ r12.IATM = some 0) :
    generate_input_rrtm cfg =
      Except.ok (joinNl [h1, h2, l12, l14, []] ++ ['\n']) := by
  obtain ⟨r12, hr12, hIATM⟩ := h12ex
  rw [generate_input_rrtm, hb11, ok_bind, hb12, ok_bind, hb14, ok_bind, hr12, req_some,
    ok_bind, hIATM, req_some, ok_bind, if_neg (by decide)]
  simp


/-! ### Claim C1: the lines of the full IATM = 1, IBMAX = 0 document -/

set_option maxRecDepth 8000 in
/-- C1 counterexample: for a concrete full-path configuration the generated
document has 8 newline-terminated lines (2 headers, control flags, surface
properties, atmospheric profile, altitude boundaries, layer generation, and
the trailing empty line), not 9 as the claim counts. -/
theorem generate_line_count_counterexample :
    ((generate_input_rrtm cfgFull).map fun s => (docLines s).length) = Except.ok 8 ∧
    ((generate_input_rrtm cfgFull).map fun s => (docLines s).length) ≠ Except.ok 9 := by
  have h : ((generate_input_rrtm cfgFull).map fun s => (docLines s).length) =
      Except.ok 8 := by rfl
  refine ⟨h, ?_⟩
  rw [h]
  intro hc
  injection hc with hc'
  exact absurd hc' (by decide)

/-- C1 (amended): for every configuration on the `IATM = 1`, `IBMAX = 0` path
whose generation succeeds (instead of raising `KeyError` for a missing
required key or `IndexError` for a field overrunning its line buffer) and
whose two header strings are free of newline characters, the generated
document consists of exactly the two header lines, one control-flags line,
one surface-properties line, one atmospheric-profile line, one
altitude-boundary line, one layer-generation line and one trailing empty
line — 8 newline-terminated lines; splitting the text on `'\n'` yields a
9th, empty segment after the final newline. -/
theorem generate_full_path_lines
    (cfg : Config) (s h1 h2 : Str) (r12 : Record_1_2) (r31 : Record_3_1)
    (hok : generate_input_rrtm cfg = Except.ok s)
    (hr11 : cfg.record_1_1 = some (Record_1_1.mk (some h1) (some h2)))
    (hr12 : cfg.record_1_2 = some r12) (hIATM : r12.IATM = some 1)
    (hr31 : cfg.record_3_1 = some r31) (hIBMAX : r31.IBMAX = some 0)
    (hn1 : '\n' ∉ h1) (hn2 : '\n' ∉ h2) :
    ∃ l12 l14 l31 l32 l33 : Str,
      build_record_1_2 cfg = Except.ok l12 ∧ build_record_1_4 cfg = Except.ok l14 ∧
      build_record_3_1 cfg = Except.ok l31 ∧ build_record_3_2 cfg = Except.ok l32 ∧
      build_record_3_3a cfg = Except.ok l33 ∧
      docLines s = [h1, h2, l12, l14, l31, l32, l33, []] ∧
      (docLines s).length = 8 ∧ (splitNl s).length = 9 := by
  have hb11 : build_record_1_1 cfg = Except.ok [h1, h2] := by
    rw [build_record_1_1, hr11]; rfl
  have hcopy := hok
  rw [generate_input_rrtm, hb11] at hcopy
  simp only [ok_bind] at hcopy
  rcases hb12 : build_record_1_2 cfg with e | l12 <;> rw [hb12] at hcopy
  · simp at hcopy
  simp only [ok_bind] at hcopy
  rcases hb14 : build_record_1_4 cfg with e | l14 <;> rw [hb14] at hcopy
  · simp at hcopy
  simp only [ok_bind] at hcopy
  rw [hr12] at hcopy
  simp only [req_some, ok_bind] at hcopy
  rw [hIATM] at hcopy
  simp only [req_some, ok_bind, if_true] at hcopy
  rcases hb31 : build_record_3_1 cfg with e | l31 <;> rw [hb31] at hcopy
  · simp at hcopy
  simp only [ok_bind] at hcopy
  rcases hb32 : build_record_3_2 cfg with e | l32 <;> rw [hb32] at hcopy
  · simp at hcopy
  simp only [ok_bind] at hcopy
  rw [hr31] at hcopy
  simp only [req_some, ok_bind] at hcopy
  rw [hIBMAX] at hcopy
  simp only [Option.getD_some, if_true] at hcopy
  rcases hb33 : build_record_3_3a cfg with e | l33 <;> rw [hb33] at hcopy
  · simp at hcopy
  have hgen := generate_eq_of_builds cfg h1 h2 l12 l14 l31 l32 l33 hb11 hb12 hb14
    ⟨r12, hr12, hIATM⟩ hb31 hb32 ⟨r31, hr31, hIBMAX⟩ hb33
  rw [hgen] at hok
  injection hok with hs
  have nl12 := build_record_1_2_noNl hb12
  have nl14 := build_record_1_4_noNl hb14
  have nl31 := build_record_3_1_noNl hb31
  have nl32 := build_record_3_2_noNl hb32
  have nl33 := build_record_3_3a_noNl hb33
  have hpure : ∀ x ∈ [h1, h2, l12, l14, l31, l32, l33, ([] : Str)], '\n' ∉ x := by
    intro x hx
    simp only [List.mem_cons, List.not_mem_nil, or_false] at hx
    rcases hx with h | h | h | h | h | h | h | h <;> subst h
    exacts [hn1, hn2, nl12, nl14, nl31, nl32, nl33, by simp]
  have hsn : splitNl (joinNl [h1, h2, l12, l14, l31, l32, l33, []] ++ ['\n']) =
      [h1, h2, l12, l14, l31, l32, l33, []] ++ [[]] :=
    splitNl_joinNl (by simp) hpure
  subst hs
  refine ⟨l12, l14, l31, l32, l33, rfl, rfl, rfl, rfl, rfl, ?_, ?_, ?_⟩

  · simp only [docLines]
    rw [hsn]
    simp
  · simp only [docLines]
    rw [hsn]
    simp
  · rw [hsn]
    simp

set_option maxRecDepth 8000 in
/-- C1 witness: the amended line-structure theorem at `cfgFull`, whose
document is `docFull`. -/
theorem generate_full_path_lines_witness :
    ∃ l12 l14 l31 l32 l33 : Str,
      build_record_1_2 cfgFull = Except.ok l12 ∧
      build_record_1_4 cfgFull = Except.ok l14 ∧
      build_record_3_1 cfgFull = Except.ok l31 ∧
      build_record_3_2 cfgFull = Except.ok l32 ∧
      build_record_3_3a cfgFull = Except.ok l33 ∧
      docLines docFull = ["TROPICAL PROFILE".toList, "$ RRTM LW".toList, l12, l14,
        l31, l32, l33, []] ∧
      (docLines docFull).length = 8 ∧ (splitNl docFull).length = 9 :=
  generate_full_path_lines cfgFull docFull "TROPICAL PROFILE".toList "$ RRTM LW".toList
    (Record_1_2.mk (some 0) (some 1) (some 0) (some 0) (some 0) (some 0) (some 0)
      (some 0))
    (Record_3_1.mk (some 1) (some 0) (some 0) (some 7) (some 0) (some 0) none none)
    (by rfl) rfl rfl rfl rfl rfl (by decide) (by decide)

/-! ### Claim C5: IATM = 0 emits no record 3.x lines -/

/-- C5: for every configuration with `IATM = 0` whose generation succeeds
(headers free of newline characters), the document consists of the two header
lines, the control-flags line, the surface-properties line and the trailing
empty line only — no atmospheric-profile, altitude-boundary or
layer-generation line — and the output does not depend on the record 3.x
entries at all (in particular not on the value or absence of `IBMAX`). -/
theorem generate_no_atm_lines
    (cfg : Config) (s h1 h2 : Str) (r12 : Record_1_2)
    (hok : generate_input_rrtm cfg = Except.ok s)
    (hr11 : cfg.record_1_1 = some (Record_1_1.mk (some h1) (some h2)))
    (hr12 : cfg.record_1_2 = some r12) (hIATM : r12.IATM = some 0)
    (hn1 : '\n' ∉ h1) (hn2 : '\n' ∉ h2) :
    ∃ l12 l14 : Str,
      build_record_1_2 cfg = Except.ok l12 ∧ build_record_1_4 cfg = Except.ok l14 ∧
      docLines s = [h1, h2, l12, l14, []] ∧
      ∀ y4 y5 y6, generate_input_rrtm (Config.mk cfg.record_1_1 cfg.record_1_2
        cfg.record_1_4 y4 y5 y6) = generate_input_rrtm cfg := by
  have hb11 : build_record_1_1 cfg = Except.ok [h1, h2] := by
    rw [build_record_1_1, hr11]; rfl
  have hcopy := hok
  rw [generate_input_rrtm, hb11] at hcopy
  simp only [ok_bind] at hcopy
  rcases hb12 : build_record_1_2 cfg with e | l12 <;> rw [hb12] at hcopy
  · simp at hcopy
  simp only [ok_bind] at hcopy
  rcases hb14 : build_record_1_4 cfg with e | l14 <;> rw [hb14] at hcopy
  · simp at hcopy
  have hgen := generate_eq_of_builds_noatm cfg h1 h2 l12 l14 hb11 hb12 hb14
    ⟨r12, hr12, hIATM⟩
  rw [hgen] at hok
  injection hok with hs
  have nl12 := build_record_1_2_noNl hb12
  have nl14 := build_record_1_4_noNl hb14
  have hpure : ∀ x ∈ [h1, h2, l12, l14, ([] : Str)], '\n' ∉ x := by
    intro x hx
    simp only [List.mem_cons, List.not_mem_nil, or_false] at hx
    rcases hx with h | h | h | h | h <;> subst h
    exacts [hn1, hn2, nl12, nl14, by simp]
  have hsn : splitNl (joinNl [h1, h2, l12, l14, []] ++ ['\n']) =
      [h1, h2, l12, l14, []] ++ [[]] :=
    splitNl_joinNl (by simp) hpure
  subst hs
  refine ⟨l12, l14, rfl, rfl, ?_, ?_⟩
  · simp only [docLines]
    rw [hsn]
    simp
  · intro y4 y5 y6
    have hb11m : build_record_1_1 (Config.mk cfg.record_1_1 cfg.record_1_2
        cfg.record_1_4 y4 y5 y6) = Except.ok [h1, h2] := hb11
    have hb12m : build_record_1_2 (Config.mk cfg.record_1_1 cfg.record_1_2
        cfg.record_1_4 y4 y5 y6) = Except.ok l12 := hb12
    have hb14m : build_record_1_4 (Config.mk cfg.record_1_1 cfg.record_1_2
        cfg.record_1_4 y4 y5 y6) = Except.ok l14 := hb14
    have h12m : ∃ r : Record_1_2, (Config.mk cfg.record_1_1 cfg.record_1_2
        cfg.record_1_4 y4 y5 y6).record_1_2 = some r ∧ r.IATM = some 0 :=
      ⟨r12, hr12, hIATM⟩
    have hgen2 := generate_eq_of_builds_noatm _ h1 h2 l12 l14 hb11m hb12m hb14m h12m
    rw [hgen2, hgen]

set_option maxRecDepth 8000 in
/-- C5 witness: the IATM = 0 theorem at `cfgNoAtm`, whose document is
`docNoAtm`. -/
theorem generate_no_atm_lines_witness :
    ∃ l12 l14 : Str,
      build_record_1_2 cfgNoAtm = Except.ok l12 ∧
      build_record_1_4 cfgNoAtm = Except.ok l14 ∧
      docLines docNoAtm = ["TROPICAL PROFILE".toList, "$ RRTM LW".toList, l12, l14,
        []] ∧
      ∀ y4 y5 y6, generate_input_rrtm (Config.mk cfgNoAtm.record_1_1
        cfgNoAtm.record_1_2 cfgNoAtm.record_1_4 y4 y5 y6) =
        generate_input_rrtm cfgNoAtm :=
  generate_no_atm_lines cfgNoAtm docNoAtm "TROPICAL PROFILE".toList "$ RRTM LW".toList
    (Record_1_2.mk (some 0) (some 0) (some 0) (some 0) (some 0) (some 0) (some 0)
      (some 0))
    (by rfl) rfl rfl rfl (by decide) (by decide)


/-! ### Claim C6: document termination -/

/-- C6: every successfully generated document is the finalized record lines
joined by single newlines, terminated by one empty line, with a trailing
newline appended after that empty line — so the text always ends with two
consecutive newline characters. -/
theorem generate_terminator (cfg : Config) (s : Str)
    (h : generate_input_rrtm cfg = Except.ok s) :
    ∃ (ls hdr : List Str) (l12 l14 : Str) (rest : List Str),
      build_record_1_1 cfg = Except.ok hdr ∧
      build_record_1_2 cfg = Except.ok l12 ∧
      build_record_1_4 cfg = Except.ok l14 ∧
      ls = hdr ++ l12 :: l14 :: rest ∧ ls ≠ [] ∧
      s = joinNl (ls ++ [[]]) ++ ['\n'] ∧
      s = joinNl ls ++ ['\n', '\n'] := by
  rw [generate_input_rrtm] at h
  rcases hb11 : build_record_1_1 cfg with e | hdr <;> rw [hb11] at h
  · simp at h
  · simp only [ok_bind] at h
    rcases hb12 : build_record_1_2 cfg with e | l12 <;> rw [hb12] at h
    · simp at h
    · simp only [ok_bind] at h
      rcases hb14 : build_record_1_4 cfg with e | l14 <;> rw [hb14] at h
      · simp at h
      · simp only [ok_bind] at h
        rcases hr12 : cfg.record_1_2 with _ | r12 <;> rw [hr12] at h
        · simp at h
        · simp only [req_some, ok_bind] at h
          rcases hIATM : r12.IATM with _ | a <;> rw [hIATM] at h
          · simp at h
          · simp only [req_some, ok_bind] at h
            by_cases ha : a = 1
            · rw [if_pos ha] at h
              rcases hb31 : build_record_3_1 cfg with e | l31 <;> rw [hb31] at h
              · simp at h
              · simp only [ok_bind] at h
                rcases hb32 : build_record_3_2 cfg with e | l32 <;> rw [hb32] at h
                · simp at h
                · simp only [ok_bind] at h
                  rcases hr31 : cfg.record_3_1 with _ | r31 <;> rw [hr31] at h
                  · simp at h
                  · simp only [req_some, ok_bind] at h
                    by_cases hib : r31.IBMAX.getD 0 = 0
                    · rw [if_pos hib] at h
                      rcases hb33 : build_record_3_3a cfg with e | l33 <;> rw [hb33] at h
                      · simp at h
                      · simp only [ok_bind, pure_ok, Except.ok.injEq] at h
                        subst h
                        refine ⟨hdr ++ l12 :: l14 :: [l31, l32, l33], hdr, l12, l14,
                          [l31, l32, l33], rfl, rfl, rfl, rfl, by simp, rfl, ?_⟩
                        rw [joinNl_append_nil (by simp)]
                        simp
                    · rw [if_neg hib] at h
                      simp only [ok_bind, pure_ok, Except.ok.injEq] at h
                      subst h
                      refine ⟨hdr ++ l12 :: l14 :: [l31, l32], hdr, l12, l14,
                        [l31, l32], rfl, rfl, rfl, rfl, by simp, rfl, ?_⟩
                      rw [joinNl_append_nil (by simp)]
                      simp
            · rw [if_neg ha] at h
              simp only [ok_bind, pure_ok, Except.ok.injEq] at h
              subst h
              refine ⟨hdr ++ l12 :: l14 :: [], hdr, l12, l14, [], rfl, rfl, rfl,
                rfl, by simp, rfl, ?_⟩
              rw [joinNl_append_nil (by simp)]
              simp

set_option maxRecDepth 8000 in
/-- C6 witness: the terminator theorem at `cfgFull`, whose document is
`docFull`. -/
theorem generate_terminator_witness :
    ∃ (ls hdr : List Str) (l12 l14 : Str) (rest : List Str),
      build_record_1_1 cfgFull = Except.ok hdr ∧
      build_record_1_2 cfgFull = Except.ok l12 ∧
      build_record_1_4 cfgFull = Except.ok l14 ∧
      ls = hdr ++ l12 :: l14 :: rest ∧ ls ≠ [] ∧
      docFull = joinNl (ls ++ [[]]) ++ ['\n'] ∧
      docFull = joinNl ls ++ ['\n', '\n'] :=
  generate_terminator cfgFull docFull (by rfl)

/-! ### Claim C2: missing keys, IndexError overflow, and silent defaults -/

theorem build_record_1_1_error {cfg : Config} {e : String}
    (h : build_record_1_1 cfg = Except.error e) :
    e = idxErr ∨ ∃ k, e = keyErr k ∧ MissingKey cfg k := by
  rw [build_record_1_1] at h
  rcases hrec : cfg.record_1_1 with _ | r
  · rw [hrec] at h
    simp only [req_none, error_bind, Except.error.injEq] at h
    exact Or.inr ⟨"record_1_1", h.symm, by simp [MissingKey, missingKeys, missing1_1, missing1_2, missing1_4, missing3_1, missing3_2, missing3_3a, hrec]⟩
  rw [hrec] at h
  simp only [req_some, ok_bind] at h
  rcases hf1 : r.header with _ | v1
  · rw [hf1] at h
    simp only [req_none, error_bind, Except.error.injEq] at h
    exact Or.inr ⟨"header", h.symm, by simp [MissingKey, missingKeys, missing1_1, missing1_2, missing1_4, missing3_1, missing3_2, missing3_3a, hrec, hf1]⟩
  rw [hf1] at h
  simp only [req_some, ok_bind] at h
  rcases hf2 : r.control_line with _ | v2
  · rw [hf2] at h
    simp only [req_none, error_bind, Except.error.injEq] at h
    exact Or.inr ⟨"control_line", h.symm, by simp [MissingKey, missingKeys, missing1_1, missing1_2, missing1_4, missing3_1, missing3_2, missing3_3a, hrec, hf1, hf2]⟩
  rw [hf2] at h
  simp at h

theorem build_record_1_2_error {cfg : Config} {e : String}
    (h : build_record_1_2 cfg = Except.error e) :
    e = idxErr ∨ ∃ k, e = keyErr k ∧ MissingKey cfg k := by
  rw [build_record_1_2] at h
  rcases hrec : cfg.record_1_2 with _ | r
  · rw [hrec] at h
    simp only [req_none, error_bind, Except.error.injEq] at h
    exact Or.inr ⟨"record_1_2", h.symm, by simp [MissingKey, missingKeys, missing1_1, missing1_2, missing1_4, missing3_1, missing3_2, missing3_3a, hrec]⟩
  rw [hrec] at h
  simp only [req_some, ok_bind] at h
  rcases hf1 : r.IAER with _ | a1
  · rw [hf1] at h
    simp only [req_none, error_bind, Except.error.injEq] at h
    exact Or.inr ⟨"IAER", h.symm, by simp [MissingKey, missingKeys, missing1_1, missing1_2, missing1_4, missing3_1, missing3_2, missing3_3a, hrec, hf1]⟩
  rw [hf1] at h
  simp only [req_some, ok_bind] at h
  rcases hp1 : place_str (make_line 95) 19 (fmt_int a1 2) with _ | L1
  · rw [hp1] at h
    simp only [optE_none, error_bind, Except.error.injEq] at h
    exact Or.inl h.symm
  rw [hp1] at h
  simp only [optE_some, ok_bind] at h
  rcases hf2 : r.IATM with _ | a2
  · rw [hf2] at h
    simp only [req_none, error_bind, Except.error.injEq] at h
    exact Or.inr ⟨"IATM", h.symm, by simp [MissingKey, missingKeys, missing1_1, missing1_2, missing1_4, missing3_1, missing3_2, missing3_3a, hrec, hf2]⟩
  rw [hf2] at h
  simp only [req_some, ok_bind] at h
  rcases hp2 : place_str L1 50 (fmt_int a2 1) with _ | L2
  · rw [hp2] at h
    simp only [optE_none, error_bind, Except.error.injEq] at h
    exact Or.inl h.symm
  rw [hp2] at h
  simp only [optE_some, ok_bind] at h
  rcases hf3 : r.IXSECT with _ | a3
  · rw [hf3] at h
    simp only [req_none, error_bind, Except.error.injEq] at h
    exact Or.inr ⟨"IXSECT", h.symm, by simp [MissingKey, missingKeys, missing1_1, missing1_2, missing1_4, missing3_1, missing3_2, missing3_3a, hrec, hf3]⟩
  rw [hf3] at h
  simp only [req_some, ok_bind] at h
  rcases hp3 : place_str L2 70 (fmt_int a3 1) with _ | L3
  · rw [hp3] at h
    simp only [optE_none, error_bind, Except.error.injEq] at h
    exact Or.inl h.symm
  rw [hp3] at h
  simp only [optE_some, ok_bind] at h
  rcases hf4 : r.NUMANGS with _ | a4
  · rw [hf4] at h
    simp only [req_none, error_bind, Except.error.injEq] at h
    exact Or.inr ⟨"NUMANGS", h.symm, by simp [MissingKey, missingKeys, missing1_1, missing1_2, missing1_4, missing3_1, missing3_2, missing3_3a, hrec, hf4]⟩
  rw [hf4] at h
  simp only [req_some, ok_bind] at h
  rcases hp4 : place_str L3 84 (fmt_int a4 2) with _ | L4
  · rw [hp4] at h
    simp only [optE_none, error_bind, Except.error.injEq] at h
    exact Or.inl h.symm
  rw [hp4] at h
  simp only [optE_some, ok_bind] at h
  rcases hf5 : r.IOUT with _ | a5
  · rw [hf5] at h
    simp only [req_none, error_bind, Except.error.injEq] at h
    exact Or.inr ⟨"IOUT", h.symm, by simp [MissingKey, missingKeys, missing1_1, missing1_2, missing1_4, missing3_1, missing3_2, missing3_3a, hrec, hf5]⟩
  rw [hf5] at h
  simp only [req_some, ok_bind] at h
  rcases hp5 : place_str L4 88 (fmt_int a5 3) with _ | L5
  · rw [hp5] at h
    simp only [optE_none, error_bind, Except.error.injEq] at h
    exact Or.inl h.symm
  rw [hp5] at h
  simp only [optE_some, ok_bind] at h
  rcases hf6 : r.IDRV with _ | a6
  · rw [hf6] at h
    simp only [req_none, error_bind, Except.error.injEq] at h
    exact Or.inr ⟨"IDRV", h.symm, by simp [MissingKey, missingKeys, missing1_1, missing1_2, missing1_4, missing3_1, missing3_2, missing3_3a, hrec, hf6]⟩
  rw [hf6] at h
  simp only [req_some, ok_bind] at h
  rcases hp6 : place_str L5 92 (fmt_int a6 1) with _ | L6
  · rw [hp6] at h
    simp only [optE_none, error_bind, Except.error.injEq] at h
    exact Or.inl h.symm
  rw [hp6] at h
  simp only [optE_some, ok_bind] at h
  rcases hf7 : r.IMCA with _ | a7
  · rw [hf7] at h
    simp only [req_none, error_bind, Except.error.injEq] at h
    exact Or.inr ⟨"IMCA", h.symm, by simp [MissingKey, missingKeys, missing1_1, missing1_2, missing1_4, missing3_1, missing3_2, missing3_3a, hrec, hf7]⟩
  rw [hf7] at h
  simp only [req_some, ok_bind] at h
  rcases hp7 : place_str L6 94 (fmt_int a7 1) with _ | L7
  · rw [hp7] at h
    simp only [optE_none, error_bind, Except.error.injEq] at h
    exact Or.inl h.symm
  rw [hp7] at h
  simp only [optE_some, ok_bind] at h
  rcases hf8 : r.ICLD with _ | a8
  · rw [hf8] at h
    simp only [req_none, error_bind, Except.error.injEq] at h
    exact Or.inr ⟨"ICLD", h.symm, by simp [MissingKey, missingKeys, missing1_1, missing1_2, missing1_4, missing3_1, missing3_2, missing3_3a, hrec, hf8]⟩
  rw [hf8] at h
  simp only [req_some, ok_bind] at h
  rcases hp8 : place_str L7 95 (fmt_int a8 1) with _ | L8
  · rw [hp8] at h
    simp only [optE_none, error_bind, Except.error.injEq] at h
    exact Or.inl h.symm
  rw [hp8] at h
  simp only [optE_some, ok_bind] at h
  simp at h

theorem build_record_1_4_error {cfg : Config} {e : String}
    (h : build_record_1_4 cfg = Except.error e) :
    e = idxErr ∨ ∃ k, e = keyErr k ∧ MissingKey cfg k := by
  rw [build_record_1_4] at h
  rcases hrec : cfg.record_1_4 with _ | r
  · rw [hrec] at h
    simp only [req_none, error_bind, Except.error.injEq] at h
    exact Or.inr ⟨"record_1_4", h.symm, by simp [MissingKey, missingKeys, missing1_1, missing1_2, missing1_4, missing3_1, missing3_2, missing3_3a, hrec]⟩
  rw [hrec] at h
  simp only [req_some, ok_bind] at h
  rcases hf1 : r.TBOUND with _ | tb
  · rw [hf1] at h
    simp only [req_none, error_bind, Except.error.injEq] at h
    exact Or.inr ⟨"TBOUND", h.symm, by simp [MissingKey, missingKeys, missing1_1, missing1_2, missing1_4, missing3_1, missing3_2, missing3_3a, hrec, hf1]⟩
  rw [hf1] at h
  simp only [req_some, ok_bind] at h
  rcases hp1 : place_str (make_line 95) 1 (pyFixed tb 1) with _ | L1
  · rw [hp1] at h
    simp only [optE_none, error_bind, Except.error.injEq] at h
    exact Or.inl h.symm
  rw [hp1] at h
  simp only [optE_some, ok_bind] at h
  rcases hf2 : r.IEMIS with _ | ie
  · rw [hf2] at h
    simp only [req_none, error_bind, Except.error.injEq] at h
    exact Or.inr ⟨"IEMIS", h.symm, by simp [MissingKey, missingKeys, missing1_1, missing1_2, missing1_4, missing3_1, missing3_2, missing3_3a, hrec, hf2]⟩
  rw [hf2] at h
  simp only [req_some, ok_bind] at h
  rcases hp2 : place_str L1 12 (fmt_int ie 1) with _ | L2
  · rw [hp2] at h
    simp only [optE_none, error_bind, Except.error.injEq] at h
    exact Or.inl h.symm
  rw [hp2] at h
  simp only [optE_some, ok_bind] at h
  rcases hf3 : r.IREFLECT with _ | irf
  · rw [hf3] at h
    simp only [req_none, error_bind, Except.error.injEq] at h
    exact Or.inr ⟨"IREFLECT", h.symm, by simp [MissingKey, missingKeys, missing1_1, missing1_2, missing1_4, missing3_1, missing3_2, missing3_3a, hrec, hf3]⟩
  rw [hf3] at h
  simp only [req_some, ok_bind] at h
  rcases hp3 : place_str L2 15 (fmt_int irf 1) with _ | L3
  · rw [hp3] at h
    simp only [optE_none, error_bind, Except.error.injEq] at h
    exact Or.inl h.symm
  rw [hp3] at h
  simp only [optE_some, ok_bind] at h
  rcases hp9 : placeSemissFrom L3 0 (r.SEMISS.getD []) with _ | L9
  · rw [hp9] at h
    simp only [optE_none, error_bind, Except.error.injEq] at h
    exact Or.inl h.symm
  rw [hp9] at h
  simp at h

theorem build_record_3_1_error {cfg : Config} {e : String}
    (h : build_record_3_1 cfg = Except.error e) :
    e = idxErr ∨ ∃ k, e = keyErr k ∧ MissingKey cfg k := by
  rw [build_record_3_1] at h
  rcases hrec : cfg.record_3_1 with _ | r
  · rw [hrec] at h
    simp only [req_none, error_bind, Except.error.injEq] at h
    exact Or.inr ⟨"record_3_1", h.symm, by simp [MissingKey, missingKeys, missing1_1, missing1_2, missing1_4, missing3_1, missing3_2, missing3_3a, hrec]⟩
  rw [hrec] at h
  simp only [req_some, ok_bind] at h
  rcases hf1 : r.MODEL with _ | m
  · rw [hf1] at h
    simp only [req_none, error_bind, Except.error.injEq] at h
    exact Or.inr ⟨"MODEL", h.symm, by simp [MissingKey, missingKeys, missing1_1, missing1_2, missing1_4, missing3_1, missing3_2, missing3_3a, hrec, hf1]⟩
  rw [hf1] at h
  simp only [req_some, ok_bind] at h
  rcases hp1 : place_str (make_line 80) 1 (fmt_int m 5) with _ | L1
  · rw [hp1] at h
    simp only [optE_none, error_bind, Except.error.injEq] at h
    exact Or.inl h.symm
  rw [hp1] at h
  simp only [optE_some, ok_bind] at h
  rcases hf2 : r.IBMAX with _ | ib
  · rw [hf2] at h
    simp only [req_none, error_bind, Except.error.injEq] at h
    exact Or.inr ⟨"IBMAX", h.symm, by simp [MissingKey, missingKeys, missing1_1, missing1_2, missing1_4, missing3_1, missing3_2, missing3_3a, hrec, hf2]⟩
  rw [hf2] at h
  simp only [req_some, ok_bind] at h
  rcases hp2 : place_str L1 11 (fmt_int ib 5) with _ | L2
  · rw [hp2] at h
    simp only [optE_none, error_bind, Except.error.injEq] at h
    exact Or.inl h.symm
  rw [hp2] at h
  simp only [optE_some, ok_bind] at h
  rcases hf3 : r.NOPRNT with _ | np
  · rw [hf3] at h
    simp only [req_none, error_bind, Except.error.injEq] at h
    exact Or.inr ⟨"NOPRNT", h.symm, by simp [MissingKey, missingKeys, missing1_1, missing1_2, missing1_4, missing3_1, missing3_2, missing3_3a, hrec, hf3]⟩
  rw [hf3] at h
  simp only [req_some, ok_bind] at h
  rcases hp3 : place_str L2 21 (fmt_int np 5) with _ | L3
  · rw [hp3] at h
    simp only [optE_none, error_bind, Except.error.injEq] at h
    exact Or.inl h.symm
  rw [hp3] at h
  simp only [optE_some, ok_bind] at h
  rcases hf4 : r.NMOL with _ | nm
  · rw [hf4] at h
    simp only [req_none, error_bind, Except.error.injEq] at h
    exact Or.inr ⟨"NMOL", h.symm, by simp [MissingKey, missingKeys, missing1_1, missing1_2, missing1_4, missing3_1, missing3_2, missing3_3a, hrec, hf4]⟩
  rw [hf4] at h
  simp only [req_some, ok_bind] at h
  rcases hp4 : place_str L3 26 (fmt_int nm 5) with _ | L4
  · rw [hp4] at h
    simp only [optE_none, error_bind, Except.error.injEq] at h
    exact Or.inl h.symm
  rw [hp4] at h
  simp only [optE_some, ok_bind] at h
  rcases hf5 : r.IPUNCH with _ | ip
  · rw [hf5] at h
    simp only [req_none, error_bind, Except.error.injEq] at h
    exact Or.inr ⟨"IPUNCH", h.symm, by simp [MissingKey, missingKeys, missing1_1, missing1_2, missing1_4, missing3_1, missing3_2, missing3_3a, hrec, hf5]⟩
  rw [hf5] at h
  simp only [req_some, ok_bind] at h
  rcases hp5 : place_str L4 31 (fmt_int ip 5) with _ | L5
  · rw [hp5] at h
    simp only [optE_none, error_bind, Except.error.injEq] at h
    exact Or.inl h.symm
  rw [hp5] at h
  simp only [optE_some, ok_bind] at h
  rcases hf6 : r.MUNITS with _ | mu
  · rw [hf6] at h
    simp only [req_none, error_bind, Except.error.injEq] at h
    exact Or.inr ⟨"MUNITS", h.symm, by simp [MissingKey, missingKeys, missing1_1, missing1_2, missing1_4, missing3_1, missing3_2, missing3_3a, hrec, hf6]⟩
  rw [hf6] at h
  simp only [req_some, ok_bind] at h
  rcases hp6 : place_str L5 39 (fmt_int mu 2) with _ | L6
  · rw [hp6] at h
    simp only [optE_none, error_bind, Except.error.injEq] at h
    exact Or.inl h.symm
  rw [hp6] at h
  simp only [optE_some, ok_bind] at h
  by_cases hre : r.RE.getD 0 ≠ 0
  · rw [if_pos hre] at h
    rcases hq1 : place_str L6 41 (fmt_float_f (r.RE.getD 0) 10 3) with _ | LQ1
    · rw [hq1] at h
      simp only [optE_none, error_bind, Except.error.injEq] at h
      exact Or.inl h.symm
    rw [hq1] at h
    simp only [optE_some, ok_bind] at h
    by_cases hco : r.CO2MX.getD 0 ≠ 0
    · rw [if_pos hco] at h
      rcases hq2 : place_str LQ1 71 (fmt_float_f (r.CO2MX.getD 0) 10 3) with _ | LQ2
      · rw [hq2] at h
        simp only [optE_none, error_bind, Except.error.injEq] at h
        exact Or.inl h.symm
      rw [hq2] at h
      simp at h
    · rw [if_neg hco] at h
      rcases hq2 : place_str LQ1 71 ['0'] with _ | LQ2
      · rw [hq2] at h
        simp only [optE_none, error_bind, Except.error.injEq] at h
        exact Or.inl h.symm
      rw [hq2] at h
      simp at h
  · rw [if_neg hre] at h
    rcases hq1 : place_str L6 45 ['0'] with _ | LQ1
    · rw [hq1] at h
      simp only [optE_none, error_bind, Except.error.injEq] at h
      exact Or.inl h.symm
    rw [hq1] at h
    simp only [optE_some, ok_bind] at h
    by_cases hco : r.CO2MX.getD 0 ≠ 0
    · rw [if_pos hco] at h
      rcases hq2 : place_str LQ1 71 (fmt_float_f (r.CO2MX.getD 0) 10 3) with _ | LQ2
      · rw [hq2] at h
        simp only [optE_none, error_bind, Except.error.injEq] at h
        exact Or.inl h.symm
      rw [hq2] at h
      simp at h
    · rw [if_neg hco] at h
      rcases hq2 : place_str LQ1 71 ['0'] with _ | LQ2
      · rw [hq2] at h
        simp only [optE_none, error_bind, Except.error.injEq] at h
        exact Or.inl h.symm
      rw [hq2] at h
      simp at h

theorem build_record_3_2_error {cfg : Config} {e : String}
    (h : build_record_3_2 cfg = Except.error e) :
    e = idxErr ∨ ∃ k, e = keyErr k ∧ MissingKey cfg k := by
  rw [build_record_3_2] at h
  rcases hrec : cfg.record_3_2 with _ | r
  · rw [hrec] at h
    simp only [req_none, error_bind, Except.error.injEq] at h
    exact Or.inr ⟨"record_3_2", h.symm, by simp [MissingKey, missingKeys, missing1_1, missing1_2, missing1_4, missing3_1, missing3_2, missing3_3a, hrec]⟩
  rw [hrec] at h
  simp only [req_some, ok_bind] at h
  rcases hf1 : r.HBOUND with _ | hb
  · rw [hf1] at h
    simp only [req_none, error_bind, Except.error.injEq] at h
    exact Or.inr ⟨"HBOUND", h.symm, by simp [MissingKey, missingKeys, missing1_1, missing1_2, missing1_4, missing3_1, missing3_2, missing3_3a, hrec, hf1]⟩
  rw [hf1] at h
  simp only [req_some, ok_bind] at h
  rcases hp1 : place_str (make_line 20) 1 (pyFixed hb 1) with _ | L1
  · rw [hp1] at h
    simp only [optE_none, error_bind, Except.error.injEq] at h
    exact Or.inl h.symm
  rw [hp1] at h
  simp only [optE_some, ok_bind] at h
  rcases hf2 : r.HTOA with _ | ht
  · rw [hf2] at h
    simp only [req_none, error_bind, Except.error.injEq] at h
    exact Or.inr ⟨"HTOA", h.symm, by simp [MissingKey, missingKeys, missing1_1, missing1_2, missing1_4, missing3_1, missing3_2, missing3_3a, hrec, hf2]⟩
  rw [hf2] at h
  simp only [req_some, ok_bind] at h
  rcases hp2 : place_str L1 11 (fmt_float_f ht 10 1) with _ | L2
  · rw [hp2] at h
    simp only [optE_none, error_bind, Except.error.injEq] at h
    exact Or.inl h.symm
  rw [hp2] at h
  simp only [optE_some, ok_bind] at h
  simp at h

theorem build_record_3_3a_error {cfg : Config} {e : String}
    (h : build_record_3_3a cfg = Except.error e) :
    e = idxErr ∨ ∃ k, e = keyErr k ∧ MissingKey cfg k := by
  rw [build_record_3_3a] at h
  rcases hrec : cfg.record_3_3a with _ | r
  · rw [hrec] at h
    simp only [req_none, error_bind, Except.error.injEq] at h
    exact Or.inr ⟨"record_3_3a", h.symm, by simp [MissingKey, missingKeys, missing1_1, missing1_2, missing1_4, missing3_1, missing3_2, missing3_3a, hrec]⟩
  rw [hrec] at h
  simp only [req_some, ok_bind] at h
  rcases hp1 : place_str (make_line 50) 1 (fmt_float_f (r.AVTRAT.getD 0) 10 0) with _ | L1
  · rw [hp1] at h
    simp only [optE_none, error_bind, Except.error.injEq] at h
    exact Or.inl h.symm
  rw [hp1] at h
  simp only [optE_some, ok_bind] at h
  rcases hp2 : place_str L1 11 (fmt_float_f (r.TDIFF1.getD 0) 10 0) with _ | L2
  · rw [hp2] at h
    simp only [optE_none, error_bind, Except.error.injEq] at h
    exact Or.inl h.symm
  rw [hp2] at h
  simp only [optE_some, ok_bind] at h
  rcases hp3 : place_str L2 21 (fmt_float_f (r.TDIFF2.getD 0) 10 0) with _ | L3
  · rw [hp3] at h
    simp only [optE_none, error_bind, Except.error.injEq] at h
    exact Or.inl h.symm
  rw [hp3] at h
  simp only [optE_some, ok_bind] at h
  rcases hp4 : place_str L3 31 (fmt_float_f (r.ALTD1.getD 0) 10 0) with _ | L4
  · rw [hp4] at h
    simp only [optE_none, error_bind, Except.error.injEq] at h
    exact Or.inl h.symm
  rw [hp4] at h
  simp only [optE_some, ok_bind] at h
  rcases hp5 : place_str L4 41 (fmt_float_f (r.ALTD2.getD 0) 10 0) with _ | L5
  · rw [hp5] at h
    simp only [optE_none, error_bind, Except.error.injEq] at h
    exact Or.inl h.symm
  rw [hp5] at h
  simp only [optE_some, ok_bind] at h
  simp at h

theorem generate_error {cfg : Config} {e : String}
    (h : generate_input_rrtm cfg = Except.error e) :
    e = idxErr ∨ ∃ k, e = keyErr k ∧ MissingKey cfg k := by
  rw [generate_input_rrtm] at h
  rcases hb11 : build_record_1_1 cfg with e1 | hdr <;> rw [hb11] at h
  · simp only [error_bind, Except.error.injEq] at h
    subst h
    exact build_record_1_1_error hb11
  simp only [ok_bind] at h
  rcases hb12 : build_record_1_2 cfg with e1 | l12 <;> rw [hb12] at h
  · simp only [error_bind, Except.error.injEq] at h
    subst h
    exact build_record_1_2_error hb12
  simp only [ok_bind] at h
  rcases hb14 : build_record_1_4 cfg with e1 | l14 <;> rw [hb14] at h
  · simp only [error_bind, Except.error.injEq] at h
    subst h
    exact build_record_1_4_error hb14
  simp only [ok_bind] at h
  rcases hr12 : cfg.record_1_2 with _ | r12 <;> rw [hr12] at h
  · simp only [req_none, error_bind, Except.error.injEq] at h
    subst h
    exact Or.inr ⟨"record_1_2", rfl, by simp [MissingKey, missingKeys, missing1_1, missing1_2, missing1_4, missing3_1, missing3_2, missing3_3a, hr12]⟩
  simp only [req_some, ok_bind] at h
  rcases hIATM : r12.IATM with _ | a <;> rw [hIATM] at h
  · simp only [req_none, error_bind, Except.error.injEq] at h
    subst h
    exact Or.inr ⟨"IATM", rfl, by simp [MissingKey, missingKeys, missing1_1, missing1_2, missing1_4, missing3_1, missing3_2, missing3_3a, hr12, hIATM]⟩
  simp only [req_some, ok_bind] at h
  by_cases ha : a = 1
  · rw [if_pos ha] at h
    rcases hb31 : build_record_3_1 cfg with e1 | l31 <;> rw [hb31] at h
    · simp only [error_bind, Except.error.injEq] at h
      subst h
      exact build_record_3_1_error hb31
    simp only [ok_bind] at h
    rcases hb32 : build_record_3_2 cfg with e1 | l32 <;> rw [hb32] at h
    · simp only [error_bind, Except.error.injEq] at h
      subst h
      exact build_record_3_2_error hb32
    simp only [ok_bind] at h
    rcases hr31 : cfg.record_3_1 with _ | r31 <;> rw [hr31] at h
    · simp only [req_none, error_bind, Except.error.injEq] at h
      subst h
      exact Or.inr ⟨"record_3_1", rfl, by simp [MissingKey, missingKeys, missing1_1, missing1_2, missing1_4, missing3_1, missing3_2, missing3_3a, hr31]⟩
    simp only [req_some, ok_bind] at h
    by_cases hib : r31.IBMAX.getD 0 = 0
    · rw [if_pos hib] at h
      rcases hb33 : build_record_3_3a cfg with e1 | l33 <;> rw [hb33] at h
      · simp only [error_bind, Except.error.injEq] at h
        subst h
        exact build_record_3_3a_error hb33
      simp at h
    · rw [if_neg hib] at h
      simp at h
  · rw [if_neg ha] at h
    simp at h


theorem build_record_1_4_fill (cfg : Config) :
    build_record_1_4 (fillDefaults cfg) = build_record_1_4 cfg := by
  rcases hrec : cfg.record_1_4 with _ | r
  · have hf : (fillDefaults cfg).record_1_4 = none := by
      simp only [fillDefaults, hrec]
    rw [build_record_1_4, build_record_1_4, hf, hrec]
  · have hf : (fillDefaults cfg).record_1_4 = some (Record_1_4.mk r.TBOUND r.IEMIS
        r.IREFLECT (some (r.SEMISS.getD []))) := by
      simp only [fillDefaults, hrec]
    rw [build_record_1_4, build_record_1_4, hf, hrec]
    rfl

theorem build_record_3_1_fill (cfg : Config) :
    build_record_3_1 (fillDefaults cfg) = build_record_3_1 cfg := by
  rcases hrec : cfg.record_3_1 with _ | r
  · have hf : (fillDefaults cfg).record_3_1 = none := by
      simp only [fillDefaults, hrec]
    rw [build_record_3_1, build_record_3_1, hf, hrec]
  · have hf : (fillDefaults cfg).record_3_1 = some (Record_3_1.mk r.MODEL r.IBMAX
        r.NOPRNT r.NMOL r.IPUNCH r.MUNITS (some (r.RE.getD 0))
        (some (r.CO2MX.getD 0))) := by
      simp only [fillDefaults, hrec]
    rw [build_record_3_1, build_record_3_1, hf, hrec]
    rfl

theorem build_record_3_3a_fill (cfg : Config) :
    build_record_3_3a (fillDefaults cfg) = build_record_3_3a cfg := by
  rcases hrec : cfg.record_3_3a with _ | r
  · have hf : (fillDefaults cfg).record_3_3a = none := by
      simp only [fillDefaults, hrec]
    rw [build_record_3_3a, build_record_3_3a, hf, hrec]
  · have hf : (fillDefaults cfg).record_3_3a = some (Record_3_3a.mk
        (some (r.AVTRAT.getD 0)) (some (r.TDIFF1.getD 0)) (some (r.TDIFF2.getD 0))
        (some (r.ALTD1.getD 0)) (some (r.ALTD2.getD 0))) := by
      simp only [fillDefaults, hrec]
    rw [build_record_3_3a, build_record_3_3a, hf, hrec]
    rfl

theorem generate_fill (cfg : Config) :
    generate_input_rrtm (fillDefaults cfg) = generate_input_rrtm cfg := by
  rw [generate_input_rrtm, generate_input_rrtm, build_record_1_4_fill,
    build_record_3_1_fill, build_record_3_3a_fill]
  rcases hrec : cfg.record_3_1 with _ | r
  · have hf : (fillDefaults cfg).record_3_1 = none := by
      simp only [fillDefaults, hrec]
    rw [hf]
    rfl
  · have hf : (fillDefaults cfg).record_3_1 = some (Record_3_1.mk r.MODEL r.IBMAX
        r.NOPRNT r.NMOL r.IPUNCH r.MUNITS (some (r.RE.getD 0))
        (some (r.CO2MX.getD 0))) := by
      simp only [fillDefaults, hrec]
    rw [hf]
    rfl


set_option maxRecDepth 8000 in
/-- C2 counterexample: in `cfgFull` the `RE` and `CO2MX` fields of the
atmospheric-profile record — which is on the active `IATM = 1` path — are
absent, yet generation does not fail, and produces exactly the document that
explicit zero values produce: they are silently defaulted to zero although
they are not layer-generation-parameters fields. -/
theorem generate_silent_default_counterexample :
    (generate_input_rrtm cfgFull).isOk = true ∧
    generate_input_rrtm cfgFull = generate_input_rrtm cfgFullRE0 := by
  constructor
  · rfl
  · rfl

theorem mem_iteSingleton {k a : String} {c : Prop} [Decidable c]
    (h : k ∈ (if c then [a] else ([] : List String))) : k = a := by
  split at h
  · simpa using h
  · simp at h

theorem mem_missing3_1 {o : Option Record_3_1} {k : String} (h : k ∈ missing3_1 o) :
    k = "record_3_1" ∨ k = "MODEL" ∨ k = "IBMAX" ∨ k = "NOPRNT" ∨ k = "NMOL" ∨
      k = "IPUNCH" ∨ k = "MUNITS" := by
  rcases o with _ | r
  · simp only [missing3_1, List.mem_singleton] at h
    exact Or.inl h
  · simp only [missing3_1, List.mem_append] at h
    rcases h with ((((h | h) | h) | h) | h) | h
    · exact Or.inr (Or.inl (mem_iteSingleton h))
    · exact Or.inr (Or.inr (Or.inl (mem_iteSingleton h)))
    · exact Or.inr (Or.inr (Or.inr (Or.inl (mem_iteSingleton h))))
    · exact Or.inr (Or.inr (Or.inr (Or.inr (Or.inl (mem_iteSingleton h)))))
    · exact Or.inr (Or.inr (Or.inr (Or.inr (Or.inr (Or.inl (mem_iteSingleton h))))))
    · exact Or.inr (Or.inr (Or.inr (Or.inr (Or.inr (Or.inr (mem_iteSingleton h))))))

theorem mem_missing3_2 {o : Option Record_3_2} {k : String} (h : k ∈ missing3_2 o) :
    k = "record_3_2" ∨ k = "HBOUND" ∨ k = "HTOA" := by
  rcases o with _ | r
  · simp only [missing3_2, List.mem_singleton] at h
    exact Or.inl h
  · simp only [missing3_2, List.mem_append] at h
    rcases h with h | h
    · exact Or.inr (Or.inl (mem_iteSingleton h))
    · exact Or.inr (Or.inr (mem_iteSingleton h))

theorem mem_missing3_3a {o : Option Record_3_3a} {k : String} (h : k ∈ missing3_3a o) :
    k = "record_3_3a" := by
  rcases o with _ | r
  · simpa [missing3_3a] using h
  · simp [missing3_3a] at h

/-- A successful generation has every required key of its active path
present. -/
theorem generate_ok_required {cfg : Config} {s : Str}
    (h : generate_input_rrtm cfg = Except.ok s) :
    ∀ k ∈ requiredKeys cfg, ¬ MissingKey cfg k := by
  rw [generate_input_rrtm] at h
  rcases hb11 : build_record_1_1 cfg with e | hdr <;> rw [hb11] at h
  · simp at h
  simp only [ok_bind] at h
  rcases hb12 : build_record_1_2 cfg with e | l12 <;> rw [hb12] at h
  · simp at h
  simp only [ok_bind] at h
  rcases hb14 : build_record_1_4 cfg with e | l14 <;> rw [hb14] at h
  · simp at h
  simp only [ok_bind] at h
  rcases hr12 : cfg.record_1_2 with _ | r12 <;> rw [hr12] at h
  · simp at h
  simp only [req_some, ok_bind] at h
  rcases hIATM : r12.IATM with _ | a <;> rw [hIATM] at h
  · simp at h
  simp only [req_some, ok_bind] at h
  have hm11 := build_record_1_1_ok_inv hb11
  have hm12 := (build_record_1_2_ok_inv hb12).1
  have hm14 := (build_record_1_4_ok_inv hb14).1
  rw [hr12] at hm12
  by_cases ha : a = 1
  · rw [if_pos ha] at h
    rcases hb31 : build_record_3_1 cfg with e | l31 <;> rw [hb31] at h
    · simp at h
    simp only [ok_bind] at h
    rcases hb32 : build_record_3_2 cfg with e | l32 <;> rw [hb32] at h
    · simp at h
    simp only [ok_bind] at h
    rcases hr31 : cfg.record_3_1 with _ | r31 <;> rw [hr31] at h
    · simp at h
    simp only [req_some, ok_bind] at h
    have hm31 := (build_record_3_1_ok_inv hb31).1
    have hm32 := (build_record_3_2_ok_inv hb32).1
    rw [hr31] at hm31
    by_cases hib : r31.IBMAX.getD 0 = 0
    · rcases hb33 : build_record_3_3a cfg with e | l33
      · rw [if_pos hib, hb33] at h
        simp at h
      have hm33 := (build_record_3_3a_ok_inv hb33).1
      intro k _ hm
      simp only [MissingKey, missingKeys, hr12, hr31, hm11, hm12, hm14, hm31, hm32,
        hm33] at hm
      simp at hm
    · intro k hk hm
      simp only [MissingKey, missingKeys, hr12, hr31, hm11, hm12, hm14, hm31, hm32,
        List.nil_append, List.append_nil] at hm
      have hk3 := mem_missing3_3a hm
      subst hk3
      have hreq : requiredKeys cfg = ["record_1_1", "header", "control_line",
          "record_1_2", "IAER", "IATM", "IXSECT", "NUMANGS", "IOUT", "IDRV", "IMCA",
          "ICLD", "record_1_4", "TBOUND", "IEMIS", "IREFLECT", "record_3_1", "MODEL",
          "IBMAX", "NOPRNT", "NMOL", "IPUNCH", "MUNITS", "record_3_2", "HBOUND",
          "HTOA"] := by
        rw [requiredKeys, hr12]
        simp [hIATM, ha, hr31, hib]
      rw [hreq] at hk
      exact absurd hk (by decide)
  · intro k hk hm
    have hreq : requiredKeys cfg = ["record_1_1", "header", "control_line",
        "record_1_2", "IAER", "IATM", "IXSECT", "NUMANGS", "IOUT", "IDRV", "IMCA",
        "ICLD", "record_1_4", "TBOUND", "IEMIS", "IREFLECT"] := by
      rw [requiredKeys, hr12]
      simp [hIATM, ha]
    rw [hreq] at hk
    simp only [MissingKey, missingKeys, hr12, hm11, hm12, hm14,
      List.nil_append] at hm
    rw [List.mem_append, List.mem_append] at hm
    simp only [List.mem_cons, List.not_mem_nil, or_false] at hk
    rcases hm with (hm | hm) | hm
    · rcases mem_missing3_1 hm with rfl | rfl | rfl | rfl | rfl | rfl | rfl <;>
        simp at hk
    · rcases mem_missing3_2 hm with rfl | rfl | rfl <;> simp at hk
    · have := mem_missing3_3a hm
      subst this
      simp at hk

/-- A required key on the active path that is absent makes generation fail
(with an exception — a `KeyError`, or an `IndexError` raised first). -/
theorem generate_missing_fails {cfg : Config} {k : String} (hk : k ∈ requiredKeys cfg)
    (hm : MissingKey cfg k) : ∃ e, generate_input_rrtm cfg = Except.error e := by
  cases hgen : generate_input_rrtm cfg with
  | error e => exact ⟨e, rfl⟩
  | ok s => exact absurd hm (generate_ok_required hgen k hk)

/-- C2 (amended): a required key on the active conditional path that is
absent from the configuration makes generation fail; every failure is either
the `IndexError` of a field write overrunning its line buffer or a `KeyError`
naming a key that is indeed a required key absent from the configuration; and
besides the five layer-generation-parameters fields (which default to zero),
the fields `SEMISS` (default: empty sequence), `RE` and `CO2MX` (default:
zero) are also silently defaulted — the defaulted fields are exactly the ones
`fillDefaults` fills, as the equality with the default-filled configuration
states.  (The assembler's own `IBMAX` default is unreachable, since the
profile builder has already required `IBMAX`.) -/
theorem generate_missing_key_errors :
    (∀ (cfg : Config) (k : String), k ∈ requiredKeys cfg → MissingKey cfg k →
      ∃ e, generate_input_rrtm cfg = Except.error e) ∧
    (∀ (cfg : Config) (e : String), generate_input_rrtm cfg = Except.error e →
      e = idxErr ∨ ∃ k, e = keyErr k ∧ MissingKey cfg k) ∧
    (∀ cfg : Config, generate_input_rrtm (fillDefaults cfg) = generate_input_rrtm cfg) :=
  ⟨fun _ _ hk hm => generate_missing_fails hk hm, fun _ _ h => generate_error h,
   generate_fill⟩

/-- C2 witness: the fail-fast part applied at the empty configuration and the
key `record_1_1`; the error-soundness part at the empty configuration's
actual error `KeyError: record_1_1`; the defaulting part at `cfgFull`. -/
theorem generate_missing_key_errors_witness :
    (∃ e, generate_input_rrtm (Config.mk none none none none none none) =
      Except.error e) ∧
    (keyErr "record_1_1" = idxErr ∨ ∃ k, keyErr "record_1_1" = keyErr k ∧
      MissingKey (Config.mk none none none none none none) k) ∧
    generate_input_rrtm (fillDefaults cfgFull) = generate_input_rrtm cfgFull :=
  ⟨generate_missing_key_errors.1 (Config.mk none none none none none none)
      "record_1_1" (by decide) (by decide),
   generate_missing_key_errors.2.1 (Config.mk none none none none none none)
      (keyErr "record_1_1") rfl,
   generate_missing_key_errors.2.2 cfgFull⟩

example : pyFixed (mkRat 288 1) 1 = "288.0".toList := by decide
example : pyFixed 0 2 = "0.00".toList := by decide
example : pyFixed (mkRat 5 2) 0 = "2".toList := by decide
example : pyFixed (mkRat 7 2) 0 = "4".toList := by decide
example : pyFixed (mkRat (-1) 5) 0 = "-0".toList := by decide
example : pyFixed (mkRat 3 1) 0 = "3".toList := by decide
example : fmt_float_f 3 10 0 = "         3".toList := by decide
example : fmt_float_e (mkRat 1 2) 10 2 = "  5.00E-01".toList := by decide
example : fmt_float_e 0 10 2 = "      0.00".toList := by decide
example : fmt_float_e (mkRat 5 1) 8 0 = "   5E+00".toList := by decide
example : fmt_int 123 2 = "123".toList := by decide
example : fmt_int (-5) 2 = "-5".toList := by decide
example : place_str (make_line 95) 95 ['1', '0'] = none := by decide
example : place_str (make_line 95) 96 ['0'] = none := by decide
example : build_record_1_2 (Config.mk none (some (Record_1_2.mk (some 0) (some 1)
  (some 0) (some 0) (some 0) (some 0) (some 0) (some 10))) none none none none) =
  Except.error idxErr := by rfl
example : build_record_1_4 (Config.mk none none (some (Record_1_4.mk (some 288)
  (some 1) (some 0) (some (List.replicate 17 1)))) none none none) =
  Except.error idxErr := by rfl

end RRTMG
